import Mathlib

/-!
Shallow embedding of the segment-to-animation composition pipeline of the
`reels` repository: the animation-component registry and built-in component
library (`src/animationComponents/`), the composition assembler
`renderComponentBasedHTML` (`src/animationComponents/registry.ts`), the
scene-switching runtime script that the assembler emits into the merged
document (same file, lines 262-340), and the host player's per-frame
synchronization loop (`syncLoop`).

Times (seconds) are modelled as rationals.  JavaScript parameter bags
(`{ [key: string]: any }`) are modelled as association lists from keys to a
`Value` type, with first-match lookup; object spread `{...a, ...b}` (later
spread wins) is modelled by putting the later-spread list in front.
-/

/-- A JavaScript value as it occurs in component parameter bags. -/
inductive Value where
  | str (s : String)
  | num (q : ℚ)
  | boolv (b : Bool)
deriving DecidableEq, Repr

/-- Parameter bag (`ComponentParams`): key/value pairs, first match wins on
lookup. -/
abbrev Params := List (String × Value)

/-- Property access `params.key`: `none` models JavaScript `undefined`. -/
def lookupParam (params : Params) (key : String) : Option Value :=
  (params.find? (fun p => p.1 == key)).map (·.2)

/-- JavaScript falsiness for the values we model (`''`, `0` and `false` are
falsy). -/
def falsy : Value → Bool
  | .str s => s == ""
  | .num q => q == 0
  | .boolv b => !b

/-- JavaScript `x || d` on a possibly-undefined value `x`. -/
def jsOr (o : Option Value) (d : Value) : Value :=
  match o with
  | some v => if falsy v then d else v
  | none => d

/-- JavaScript destructuring default `const { k = d } = params`: the default
applies only when the property is `undefined` (falsy values are kept). -/
def destrD (o : Option Value) (d : Value) : Value := o.getD d

/-- JavaScript number-to-string as used by template-literal interpolation.
Integral rationals print like JS integers; the exact JS decimal rendering of
non-integral numbers is not depended on by any claim and is approximated by
the rational's own representation. -/
def jsNum (q : ℚ) : String :=
  if q.den = 1 then toString q.num else toString q

/-- Template-literal interpolation of a value, `${v}`. -/
def valStr : Value → String
  | .str s => s
  | .num q => jsNum q
  | .boolv b => if b then "true" else "false"

/-- Template-literal interpolation of a possibly-undefined value: JavaScript
renders `undefined` as the string `"undefined"`. -/
def optStr (o : Option Value) : String :=
  match o with
  | some v => valStr v
  | none => "undefined"

/-!
## Scene-Switching Runtime

Embedding of the script that `renderComponentBasedHTML` emits into the merged
document (registry.ts lines 262-340).  A GSAP timeline object is modelled by
its playhead position (a rational); `sceneTimelines` is the id-keyed store
filled by the initialization block; `currentScene` is the `currentScene`
variable of the script, which also determines which `.scene` container is
visible (the script shows exactly the container of `currentScene` and hides
all others).
-/

/-- One entry of the `scenes` table (`sceneData` push in registry.ts lines
167-171): `{ id, start, end }`.  The `end` field is called `stop` because
`end` is a Lean keyword. -/
structure SceneData where
  id : String
  start : ℚ
  stop : ℚ
deriving DecidableEq, Repr

/-- Mutable state of the emitted runtime script: the `currentScene` variable
and the `sceneTimelines` store (scene id to timeline playhead). -/
structure DocState where
  currentScene : Option String
  sceneTimelines : List (String × ℚ)
deriving DecidableEq, Repr

/-- Timeline store lookup `sceneTimelines[scene.id]`. -/
def lookupTimeline (tls : List (String × ℚ)) (id : String) : Option ℚ :=
  (tls.find? (fun p => p.1 == id)).map (·.2)

/-- `timeline.seek(relativeTime)`: sets the playhead of the stored timeline;
a no-op when no timeline is stored under `id` (the script guards with
`if (timeline)`). -/
def seekTimeline (tls : List (String × ℚ)) (id : String) (t : ℚ) :
    List (String × ℚ) :=
  tls.map (fun p => if p.1 == id then (p.1, t) else p)

/-- The emitted `showScene(sceneId)` (registry.ts lines 286-307): early
return when the scene is already current; otherwise hide all scenes and, when
`document.getElementById(sceneId)` finds a container (`containers` is the set
of container ids present in the document), show it and update
`currentScene`. -/
def showScene (containers : List String) (st : DocState) (sceneId : String) :
    DocState :=
  if st.currentScene = some sceneId then st
  else if sceneId ∈ containers then { st with currentScene := some sceneId }
  else st

/-- The `timeupdate` branch of the emitted message listener (registry.ts
lines 310-329): scan the `scenes` table in order; at the first entry with
`time >= scene.start && time < scene.end`, call `showScene`, seek that
scene's stored timeline (if any) to `time - scene.start`, and `break`. -/
def handleTimeUpdate (containers : List String) (scenes : List SceneData)
    (st : DocState) (time : ℚ) : DocState :=
  match scenes with
  | [] => st
  | sc :: rest =>
    if sc.start ≤ time ∧ time < sc.stop then
      let st1 := showScene containers st sc.id
      { st1 with
        sceneTimelines := seekTimeline st1.sceneTimelines sc.id (time - sc.start) }
    else handleTimeUpdate containers rest st time

/-- The timeline-initialization block emitted at registry.ts lines 274-283:
one `try` block containing, for every scene in order,
`sceneTimelines.sN = animateSN();`.  The input pairs each scene id with the
outcome of its factory call (`some p` is a returned timeline at playhead `p`,
`none` a thrown exception); the single surrounding `try`/`catch` means a
throw aborts the whole remaining block while keeping the entries already
assigned. -/
def initTimelines : List (String × Option ℚ) → List (String × ℚ)
  | [] => []
  | (id, some p) :: rest => (id, p) :: initTimelines rest
  | (_, none) :: _ => []
def emphasisHtml1 : String := "\n      <div class=\"emphasis-wrapper\">\n        <div class=\"emphasis-content\">\n          <h1 class=\"emphasis-text\">"
def emphasisHtml2 : String := "</h1>\n        </div>\n      </div>\n    "
-- holes for emphasis html: ["text"]
def emphasisCss1 : String := "\n      .emphasis-wrapper \x7b\n        display: flex;\n        align-items: center;\n        justify-content: center;\n        height: 100%;\n        padding: 5vh 8vw;\n      \x7d\n      \n      .emphasis-content \x7b\n        text-align: center;\n      \x7d\n      \n      .emphasis-text \x7b\n        font-size: "
def emphasisCss2 : String := ";\n        font-weight: 900;\n        color: "
def emphasisCss3 : String := ";\n        text-transform: uppercase;\n        letter-spacing: 0.05em;\n        line-height: 1.3;\n        margin: 0;\n        text-shadow: 0 0 20px "
def emphasisCss4 : String := "80, \n                     0 0 40px "
def emphasisCss5 : String := "40,\n                     2px 2px 0 rgba(0,0,0,0.8);\n      \x7d\n    "
-- holes for emphasis css: ["fontSize", "color", "glowColor", "glowColor"]
def emphasisScript1 : String := "\n      var tl = gsap.timeline(\x7b paused: true \x7d);\n      \n      /* Scale in with bounce */\n      tl.from(\x27.emphasis-text\x27, \x7b\n        scale: 0,\n        opacity: 0,\n        duration: 0.6,\n        ease: \x27back.out(2)\x27\n      \x7d, 0);\n      \n      /* Pulse effect */\n      tl.to(\x27.emphasis-text\x27, \x7b\n        scale: 1.1,\n        duration: 0.3,\n        yoyo: true,\n        repeat: 1,\n        ease: \x27power2.inOut\x27\n      \x7d, 0.6);\n      \n      /* Subtle continuous glow (if duration is long enough) */\n      if ("
def emphasisScript2 : String := " > 2) \x7b\n        tl.to(\x27.emphasis-text\x27, \x7b\n          textShadow: \x270 0 30px "
def emphasisScript3 : String := "ff, 0 0 60px "
def emphasisScript4 : String := "80, 2px 2px 0 rgba(0,0,0,0.8)\x27,\n          duration: 0.5,\n          yoyo: true,\n          repeat: -1,\n          ease: \x27sine.inOut\x27\n        \x7d, 1.5);\n      \x7d\n      \n      return tl;\n    "
-- holes for emphasis script: ["duration", "glowColor", "glowColor"]

def textDisplayHtml1 : String := "\n      <div class=\"text-display-container\">\n        <div class=\"text-display-content\">\n          <p class=\"text-display-text\">"
def textDisplayHtml2 : String := "</p>\n        </div>\n      </div>\n    "
-- holes for textDisplay html: ["text"]
def textDisplayCss1 : String := "\n      .text-display-container \x7b\n        width: 100%;\n        height: 100%;\n        display: flex;\n        align-items: center;\n        justify-content: center;\n        background: "
def textDisplayCss2 : String := ";\n        padding: 20px;\n        box-sizing: border-box;\n      \x7d\n      \n      .text-display-content \x7b\n        max-width: 90%;\n        text-align: center;\n      \x7d\n      \n      .text-display-text \x7b\n        font-size: "
def textDisplayCss3 : String := ";\n        color: "
def textDisplayCss4 : String := ";\n        font-weight: 600;\n        line-height: 1.4;\n        margin: 0;\n        padding: 15px;\n        background: rgba(255, 255, 255, 0.1);\n        border-radius: 12px;\n        opacity: 1;\n      \x7d\n    "
-- holes for textDisplay css: ["bgColor", "fontSize", "color"]
def textDisplayScript1 : String := "\n      var tl = gsap.timeline();\n      \n      tl.from(\x27.text-display-text\x27, \x7b\n        scale: 0.5,\n        opacity: 0,\n        duration: 0.4,\n        ease: \x27back.out(1.7)\x27\n      \x7d);\n      \n      tl.to(\x27.text-display-text\x27, \x7b\n        scale: 1.05,\n        duration: "
def textDisplayScript2 : String := ",\n        ease: \x27sine.inOut\x27,\n        yoyo: true,\n        repeat: 1\n      \x7d, \x27+=0.2\x27);\n      \n      return tl;\n    "
-- holes for textDisplay script: ["duration - 0.8"]

def slowAppHookHtml : String := "\n      <div class=\"hook-container\">\n        <div class=\"app-box\">\n          <div class=\"app-icon\">📱</div>\n          <div class=\"app-status\">Your App</div>\n          <div class=\"slow-badge\">🐌 SLOW</div>\n        </div>\n        \n        <div class=\"flow-arrows\">\n          <div class=\"flow-arrow a1\">↓</div>\n          <div class=\"flow-arrow a2\">↓</div>\n          <div class=\"flow-arrow a3\">↓</div>\n        </div>\n        \n        <div class=\"db-box\">\n          <div class=\"db-icon\">🗄️</div>\n          <div class=\"db-label\">Database</div>\n          <div class=\"query-counter\">Query #<span class=\"count\">287</span></div>\n        </div>\n        \n        <div class=\"message\">Every. Single. Time.</div>\n      </div>\n    "
def slowAppHookCss : String := "\n      .hook-container \x7b\n        width: 100%;\n        height: 100%;\n        display: flex;\n        flex-direction: column;\n        align-items: center;\n        justify-content: center;\n        gap: 0.48rem;\n      \x7d\n      \n      .app-box \x7b\n        display: flex;\n        flex-direction: column;\n        align-items: center;\n        gap: 0.24rem;\n        padding: 0.64rem 1.04rem;\n        background: rgba(255, 0, 85, 0.1);\n        border: 2px solid #ff0055;\n        border-radius: 10px;\n        box-shadow: 0 0 24px rgba(255, 0, 85, 0.4);\n        opacity: 0;\n      \x7d\n      \n      .app-icon \x7b\n        font-size: 2rem;\n      \x7d\n      \n      .app-status \x7b\n        font-size: 0.72rem;\n        font-weight: 800;\n        color: #fff;\n        text-transform: uppercase;\n      \x7d\n      \n      .slow-badge \x7b\n        font-size: 0.64rem;\n        font-weight: 900;\n        color: #ff0055;\n        padding: 0.24rem 0.56rem;\n        background: rgba(255, 0, 85, 0.2);\n        border-radius: 6px;\n        text-transform: uppercase;\n      \x7d\n      \n      .flow-arrows \x7b\n        display: flex;\n        flex-direction: column;\n        gap: 0.16rem;\n        opacity: 0;\n      \x7d\n      \n      .flow-arrow \x7b\n        font-size: 1.6rem;\n        color: #ffd700;\n        text-shadow: 0 0 12px rgba(255, 215, 0, 0.8);\n        opacity: 0;\n      \x7d\n      \n      .db-box \x7b\n        display: flex;\n        flex-direction: column;\n        align-items: center;\n        gap: 0.24rem;\n        padding: 0.64rem 1.04rem;\n        background: rgba(0, 243, 255, 0.1);\n        border: 2px solid #00f3ff;\n        border-radius: 10px;\n        box-shadow: 0 0 24px rgba(0, 243, 255, 0.4);\n        opacity: 0;\n      \x7d\n      \n      .db-icon \x7b\n        font-size: 2rem;\n      \x7d\n      \n      .db-label \x7b\n        font-size: 0.72rem;\n        font-weight: 800;\n        color: #00f3ff;\n        text-transform: uppercase;\n      \x7d\n      \n      .query-counter \x7b\n        font-size: 0.6rem;\n        font-weight: 700;\n        color: #999;\n        font-family: \x27JetBrains Mono\x27, monospace;\n      \x7d\n      \n      .count \x7b\n        color: #ff0055;\n        font-weight: 900;\n        font-size: 0.72rem;\n      \x7d\n      \n      .message \x7b\n        font-size: 0.96rem;\n        font-weight: 900;\n        color: #ff0055;\n        text-transform: uppercase;\n        letter-spacing: 1px;\n        text-shadow: 0 0 16px rgba(255, 0, 85, 0.8);\n        opacity: 0;\n      \x7d\n    "
def slowAppHookScript : String := "\n      const tl = gsap.timeline();\n      \n      tl.to(\x27.app-box\x27, \x7b\n        opacity: 1,\n        y: -8,\n        duration: 0.4,\n        ease: \x27power2.out\x27\n      \x7d, 0);\n      \n      tl.to(\x27.flow-arrows\x27, \x7b\n        opacity: 1,\n        duration: 0.2\n      \x7d, 0.4);\n      \n      tl.to([\x27.a1\x27, \x27.a2\x27, \x27.a3\x27], \x7b\n        opacity: 1,\n        y: 6,\n        duration: 0.2,\n        stagger: 0.1,\n        ease: \x27power2.out\x27\n      \x7d, 0.6);\n      \n      tl.to(\x27.db-box\x27, \x7b\n        opacity: 1,\n        y: -6,\n        duration: 0.4,\n        ease: \x27power2.out\x27\n      \x7d, 1.0);\n      \n      // Counter rapidly increments\n      tl.to(\x27.count\x27, \x7b\n        textContent: \x271000\x27,\n        duration: 0.6,\n        snap: \x7b textContent: 1 \x7d,\n        ease: \x27power2.inOut\x27\n      \x7d, 1.4);\n      \n      // DB box pulses (stressed)\n      tl.to(\x27.db-box\x27, \x7b\n        borderColor: \x27#ff0055\x27,\n        boxShadow: \x270 0 32px rgba(255, 0, 85, 0.6)\x27,\n        duration: 0.2,\n        yoyo: true,\n        repeat: 1\n      \x7d, 2.0);\n      \n      tl.to(\x27.message\x27, \x7b\n        opacity: 1,\n        scale: 1,\n        duration: 0.4,\n        ease: \x27back.out(2)\x27\n      \x7d, 2.4);\n      \n      // Animation completes at 2.8s, holds final position\n      \n      return tl;\n    "

def expensiveAndSlowHtml : String := "\n      <div class=\"problem-container\">\n        <div class=\"problem-items\">\n          <div class=\"problem-item item-1\">\n            <div class=\"item-icon\">💸</div>\n            <div class=\"item-text\">Expensive</div>\n          </div>\n          \n          <div class=\"problem-item item-2\">\n            <div class=\"item-icon\">🐌</div>\n            <div class=\"item-text\">Slow</div>\n          </div>\n          \n          <div class=\"problem-item item-3\">\n            <div class=\"item-icon\">👋</div>\n            <div class=\"item-text\">Users Leaving</div>\n          </div>\n        </div>\n      </div>\n    "
def expensiveAndSlowCss : String := "\n      .problem-container \x7b\n        width: 100%;\n        height: 100%;\n        display: flex;\n        flex-direction: column;\n        align-items: center;\n        justify-content: center;\n      \x7d\n      \n      .problem-items \x7b\n        display: flex;\n        flex-direction: column;\n        gap: 0.64rem;\n      \x7d\n      \n      .problem-item \x7b\n        display: flex;\n        align-items: center;\n        gap: 0.64rem;\n        padding: 0.64rem 1.12rem;\n        background: rgba(255, 0, 85, 0.1);\n        border: 2px solid #ff0055;\n        border-radius: 10px;\n        box-shadow: 0 0 24px rgba(255, 0, 85, 0.4);\n        opacity: 0;\n      \x7d\n      \n      .item-icon \x7b\n        font-size: 1.92rem;\n      \x7d\n      \n      .item-text \x7b\n        font-size: 0.96rem;\n        font-weight: 900;\n        color: #ff0055;\n        text-transform: uppercase;\n        letter-spacing: 0.6px;\n      \x7d\n    "
def expensiveAndSlowScript : String := "\n      const tl = gsap.timeline();\n      \n      tl.to(\x27.item-1\x27, \x7b\n        opacity: 1,\n        x: 8,\n        duration: 0.4,\n        ease: \x27back.out(2)\x27\n      \x7d, 0);\n      \n      tl.to(\x27.item-2\x27, \x7b\n        opacity: 1,\n        x: 8,\n        duration: 0.4,\n        ease: \x27back.out(2)\x27\n      \x7d, 0.5);\n      \n      tl.to(\x27.item-3\x27, \x7b\n        opacity: 1,\n        x: 8,\n        duration: 0.4,\n        ease: \x27back.out(2)\x27\n      \x7d, 1.0);\n      \n      // Quick emphasis pulse\n      tl.to([\x27.item-1\x27, \x27.item-2\x27, \x27.item-3\x27], \x7b\n        scale: 1.05,\n        duration: 0.15,\n        yoyo: true,\n        repeat: 1,\n        stagger: 0.1\n      \x7d, 1.5);\n      \n      // Animation completes at 2.0s, holds final position\n      \n      return tl;\n    "

def cachingSolutionHtml : String := "\n      <div class=\"solution-container\">\n        <div class=\"question-text\">The Fix?</div>\n        \n        <div class=\"solution-box\">\n          <div class=\"solution-icon\">⚡</div>\n          <div class=\"solution-text\">Caching</div>\n        </div>\n        \n        <div class=\"benefits\">\n          <div class=\"benefit\">✓ Fast</div>\n          <div class=\"benefit\">✓ Cheap</div>\n        </div>\n      </div>\n    "
def cachingSolutionCss : String := "\n      .solution-container \x7b\n        width: 100%;\n        height: 100%;\n        display: flex;\n        flex-direction: column;\n        align-items: center;\n        justify-content: center;\n        gap: 0.64rem;\n      \x7d\n      \n      .question-text \x7b\n        font-size: 0.88rem;\n        font-weight: 800;\n        color: #ffd700;\n        text-transform: uppercase;\n        opacity: 0;\n      \x7d\n      \n      .solution-box \x7b\n        display: flex;\n        align-items: center;\n        gap: 0.72rem;\n        padding: 0.96rem 1.6rem;\n        background: linear-gradient(135deg, rgba(0, 255, 157, 0.2), rgba(0, 243, 255, 0.2));\n        border: 3px solid #00ff9d;\n        border-radius: 13px;\n        box-shadow: 0 0 32px rgba(0, 255, 157, 0.6);\n        opacity: 0;\n      \x7d\n      \n      .solution-icon \x7b\n        font-size: 2.4rem;\n      \x7d\n      \n      .solution-text \x7b\n        font-size: 1.44rem;\n        font-weight: 900;\n        color: #00ff9d;\n        text-transform: uppercase;\n        letter-spacing: 0.8px;\n        text-shadow: 0 0 20px rgba(0, 255, 157, 0.8);\n      \x7d\n      \n      .benefits \x7b\n        display: flex;\n        gap: 0.64rem;\n        opacity: 0;\n      \x7d\n      \n      .benefit \x7b\n        font-size: 0.72rem;\n        font-weight: 800;\n        color: #00ff9d;\n        padding: 0.4rem 0.8rem;\n        background: rgba(0, 255, 157, 0.1);\n        border: 2px solid #00ff9d;\n        border-radius: 8px;\n        text-transform: uppercase;\n      \x7d\n    "
def cachingSolutionScript : String := "\n      const tl = gsap.timeline();\n      \n      tl.to(\x27.question-text\x27, \x7b\n        opacity: 1,\n        y: -6,\n        duration: 0.3,\n        ease: \x27power2.out\x27\n      \x7d, 0);\n      \n      tl.to(\x27.solution-box\x27, \x7b\n        opacity: 1,\n        scale: 1,\n        duration: 0.5,\n        ease: \x27back.out(2)\x27\n      \x7d, 0.4);\n      \n      tl.to(\x27.solution-box\x27, \x7b\n        boxShadow: \x270 0 48px rgba(0, 255, 157, 0.9)\x27,\n        duration: 0.2,\n        yoyo: true,\n        repeat: 1\n      \x7d, 0.9);\n      \n      tl.to(\x27.benefits\x27, \x7b\n        opacity: 1,\n        y: -8,\n        duration: 0.4,\n        ease: \x27power2.out\x27\n      \x7d, 1.3);\n      \n      tl.from(\x27.benefit\x27, \x7b\n        scale: 0,\n        rotation: -5,\n        duration: 0.3,\n        stagger: 0.1,\n        ease: \x27back.out(2)\x27\n      \x7d, 1.6);\n      \n      // Animation completes at 2.0s, holds final position\n      \n      return tl;\n    "

def storeInMemoryHtml : String := "\n      <div class=\"memory-container\">\n        <div class=\"instruction\">Store in Memory</div>\n        \n        <div class=\"cache-boxes\">\n          <div class=\"cache-box redis\">\n            <div class=\"cache-icon\">🔴</div>\n            <div class=\"cache-name\">Redis</div>\n          </div>\n          \n          <div class=\"or-divider\">OR</div>\n          \n          <div class=\"cache-box memcached\">\n            <div class=\"cache-icon\">💾</div>\n            <div class=\"cache-name\">Memcached</div>\n          </div>\n        </div>\n        \n        <div class=\"note-text\">Whatever works</div>\n      </div>\n    "
def storeInMemoryCss : String := "\n      .memory-container \x7b\n        width: 100%;\n        height: 100%;\n        display: flex;\n        flex-direction: column;\n        align-items: center;\n        justify-content: center;\n        gap: 0.64rem;\n      \x7d\n      \n      .instruction \x7b\n        font-size: 0.96rem;\n        font-weight: 900;\n        color: #ffd700;\n        text-transform: uppercase;\n        letter-spacing: 0.8px;\n        opacity: 0;\n      \x7d\n      \n      .cache-boxes \x7b\n        display: flex;\n        align-items: center;\n        gap: 0.64rem;\n        opacity: 0;\n      \x7d\n      \n      .cache-box \x7b\n        display: flex;\n        flex-direction: column;\n        align-items: center;\n        gap: 0.32rem;\n        padding: 0.72rem 0.96rem;\n        background: rgba(0, 243, 255, 0.1);\n        border: 2px solid #00f3ff;\n        border-radius: 10px;\n        box-shadow: 0 0 20px rgba(0, 243, 255, 0.4);\n      \x7d\n      \n      .cache-icon \x7b\n        font-size: 2rem;\n      \x7d\n      \n      .cache-name \x7b\n        font-size: 0.72rem;\n        font-weight: 800;\n        color: #00f3ff;\n        text-transform: uppercase;\n      \x7d\n      \n      .or-divider \x7b\n        font-size: 0.72rem;\n        font-weight: 800;\n        color: #999;\n        padding: 0.32rem 0.48rem;\n        background: rgba(0, 0, 0, 0.5);\n        border-radius: 6px;\n      \x7d\n      \n      .note-text \x7b\n        font-size: 0.64rem;\n        font-weight: 700;\n        color: #999;\n        font-style: italic;\n        opacity: 0;\n      \x7d\n    "
def storeInMemoryScript : String := "\n      const tl = gsap.timeline();\n      \n      tl.to(\x27.instruction\x27, \x7b\n        opacity: 1,\n        y: -8,\n        duration: 0.4,\n        ease: \x27power2.out\x27\n      \x7d, 0);\n      \n      tl.to(\x27.cache-boxes\x27, \x7b\n        opacity: 1,\n        duration: 0.3,\n        ease: \x27power2.out\x27\n      \x7d, 0.4);\n      \n      tl.from(\x27.redis\x27, \x7b\n        x: -30,\n        scale: 0,\n        duration: 0.4,\n        ease: \x27back.out(2)\x27\n      \x7d, 0.7);\n      \n      tl.from(\x27.or-divider\x27, \x7b\n        scale: 0,\n        duration: 0.2,\n        ease: \x27back.out(3)\x27\n      \x7d, 1.0);\n      \n      tl.from(\x27.memcached\x27, \x7b\n        x: 30,\n        scale: 0,\n        duration: 0.4,\n        ease: \x27back.out(2)\x27\n      \x7d, 1.2);\n      \n      tl.to(\x27.note-text\x27, \x7b\n        opacity: 1,\n        y: -6,\n        duration: 0.3,\n        ease: \x27power2.out\x27\n      \x7d, 1.7);\n      \n      // Animation completes at 2.0s, holds final position\n      \n      return tl;\n    "

def firstRequestFlowHtml : String := "\n      <div class=\"flow-container\">\n        <div class=\"flow-title\">First Request</div>\n        \n        <div class=\"flow-diagram\">\n          <div class=\"flow-step step-1\">\n            <div class=\"step-icon\">📥</div>\n            <div class=\"step-label\">Request</div>\n          </div>\n          \n          <div class=\"flow-arrow arr-1\">↓</div>\n          \n          <div class=\"flow-step step-2\">\n            <div class=\"step-icon\">🗄️</div>\n            <div class=\"step-label\">Database</div>\n          </div>\n          \n          <div class=\"flow-arrow arr-2\">↓</div>\n          \n          <div class=\"flow-step step-3\">\n            <div class=\"step-icon\">💾</div>\n            <div class=\"step-label\">Save to Cache</div>\n          </div>\n        </div>\n      </div>\n    "
def firstRequestFlowCss : String := "\n      .flow-container \x7b\n        width: 100%;\n        height: 100%;\n        display: flex;\n        flex-direction: column;\n        align-items: center;\n        justify-content: center;\n        gap: 0.56rem;\n      \x7d\n      \n      .flow-title \x7b\n        font-size: 0.88rem;\n        font-weight: 900;\n        color: #ffd700;\n        text-transform: uppercase;\n        letter-spacing: 0.8px;\n        opacity: 0;\n      \x7d\n      \n      .flow-diagram \x7b\n        display: flex;\n        flex-direction: column;\n        align-items: center;\n        gap: 0.4rem;\n      \x7d\n      \n      .flow-step \x7b\n        display: flex;\n        align-items: center;\n        gap: 0.48rem;\n        padding: 0.56rem 0.96rem;\n        background: rgba(0, 0, 0, 0.5);\n        border: 2px solid #00f3ff;\n        border-radius: 10px;\n        box-shadow: 0 0 20px rgba(0, 243, 255, 0.3);\n        opacity: 0;\n      \x7d\n      \n      .step-icon \x7b\n        font-size: 1.44rem;\n      \x7d\n      \n      .step-label \x7b\n        font-size: 0.72rem;\n        font-weight: 800;\n        color: #fff;\n        text-transform: uppercase;\n      \x7d\n      \n      .flow-arrow \x7b\n        font-size: 1.44rem;\n        color: #ffd700;\n        font-weight: 900;\n        opacity: 0;\n      \x7d\n      \n      .step-3 \x7b\n        border-color: #00ff9d;\n        box-shadow: 0 0 20px rgba(0, 255, 157, 0.4);\n      \x7d\n    "
def firstRequestFlowScript : String := "\n      const tl = gsap.timeline();\n      \n      tl.to(\x27.flow-title\x27, \x7b\n        opacity: 1,\n        y: -6,\n        duration: 0.3,\n        ease: \x27power2.out\x27\n      \x7d, 0);\n      \n      tl.to(\x27.step-1\x27, \x7b\n        opacity: 1,\n        x: 6,\n        duration: 0.4,\n        ease: \x27back.out(2)\x27\n      \x7d, 0.3);\n      \n      tl.to(\x27.arr-1\x27, \x7b\n        opacity: 1,\n        y: 4,\n        duration: 0.2\n      \x7d, 0.7);\n      \n      tl.to(\x27.step-2\x27, \x7b\n        opacity: 1,\n        x: 6,\n        duration: 0.4,\n        ease: \x27back.out(2)\x27\n      \x7d, 0.9);\n      \n      tl.to(\x27.arr-2\x27, \x7b\n        opacity: 1,\n        y: 4,\n        duration: 0.2\n      \x7d, 1.3);\n      \n      tl.to(\x27.step-3\x27, \x7b\n        opacity: 1,\n        x: 6,\n        scale: 1,\n        duration: 0.4,\n        ease: \x27back.out(2)\x27\n      \x7d, 1.5);\n      \n      // Animation completes at 1.9s, holds final position\n      \n      return tl;\n    "

def cacheHitHtml : String := "\n      <div class=\"hit-container\">\n        <div class=\"requests-info\">\n          <span class=\"req-label\">Next Requests:</span>\n          <span class=\"req-count\">1,000+</span>\n        </div>\n        \n        <div class=\"cache-visual\">\n          <div class=\"cache-icon-big\">💾</div>\n          <div class=\"cache-label\">Cache</div>\n          <div class=\"hit-badge\">⚡ CACHE HIT</div>\n        </div>\n        \n        <div class=\"speed-indicator\">\n          <div class=\"speed-text\">Instant</div>\n          <div class=\"speed-time\">~1ms</div>\n        </div>\n      </div>\n    "
def cacheHitCss : String := "\n      .hit-container \x7b\n        width: 100%;\n        height: 100%;\n        display: flex;\n        flex-direction: column;\n        align-items: center;\n        justify-content: center;\n        gap: 0.64rem;\n      \x7d\n      \n      .requests-info \x7b\n        display: flex;\n        align-items: center;\n        gap: 0.48rem;\n        padding: 0.48rem 0.88rem;\n        background: rgba(255, 215, 0, 0.1);\n        border: 2px solid #ffd700;\n        border-radius: 8px;\n        opacity: 0;\n      \x7d\n      \n      .req-label \x7b\n        font-size: 0.64rem;\n        font-weight: 700;\n        color: #ffd700;\n        text-transform: uppercase;\n      \x7d\n      \n      .req-count \x7b\n        font-size: 0.88rem;\n        font-weight: 900;\n        color: #fff;\n        font-family: \x27JetBrains Mono\x27, monospace;\n      \x7d\n      \n      .cache-visual \x7b\n        display: flex;\n        flex-direction: column;\n        align-items: center;\n        gap: 0.32rem;\n        padding: 0.96rem 1.44rem;\n        background: rgba(0, 255, 157, 0.15);\n        border: 3px solid #00ff9d;\n        border-radius: 13px;\n        box-shadow: 0 0 32px rgba(0, 255, 157, 0.6);\n        opacity: 0;\n      \x7d\n      \n      .cache-icon-big \x7b\n        font-size: 3.2rem;\n      \x7d\n      \n      .cache-label \x7b\n        font-size: 0.96rem;\n        font-weight: 900;\n        color: #00ff9d;\n        text-transform: uppercase;\n      \x7d\n      \n      .hit-badge \x7b\n        font-size: 0.72rem;\n        font-weight: 900;\n        color: #ffd700;\n        padding: 0.32rem 0.72rem;\n        background: rgba(255, 215, 0, 0.2);\n        border: 2px solid #ffd700;\n        border-radius: 6px;\n        text-transform: uppercase;\n        animation: pulse-glow 1.5s ease-in-out infinite;\n      \x7d\n      \n      @keyframes pulse-glow \x7b\n        0%, 100% \x7b box-shadow: 0 0 12px rgba(255, 215, 0, 0.4); \x7d\n        50% \x7b box-shadow: 0 0 24px rgba(255, 215, 0, 0.8); \x7d\n      \x7d\n      \n      .speed-indicator \x7b\n        display: flex;\n        flex-direction: column;\n        align-items: center;\n        gap: 0.16rem;\n        opacity: 0;\n      \x7d\n      \n      .speed-text \x7b\n        font-size: 1.04rem;\n        font-weight: 900;\n        color: #00ff9d;\n        text-transform: uppercase;\n        text-shadow: 0 0 16px rgba(0, 255, 157, 0.8);\n      \x7d\n      \n      .speed-time \x7b\n        font-size: 0.64rem;\n        font-weight: 700;\n        color: #999;\n        font-family: \x27JetBrains Mono\x27, monospace;\n      \x7d\n    "
def cacheHitScript : String := "\n      const tl = gsap.timeline();\n      \n      tl.to(\x27.requests-info\x27, \x7b\n        opacity: 1,\n        y: -6,\n        duration: 0.4,\n        ease: \x27power2.out\x27\n      \x7d, 0);\n      \n      tl.to(\x27.cache-visual\x27, \x7b\n        opacity: 1,\n        scale: 1,\n        duration: 0.5,\n        ease: \x27back.out(2)\x27\n      \x7d, 0.4);\n      \n      tl.to(\x27.cache-visual\x27, \x7b\n        boxShadow: \x270 0 48px rgba(0, 255, 157, 0.9)\x27,\n        duration: 0.2,\n        yoyo: true,\n        repeat: 1\n      \x7d, 0.9);\n      \n      tl.to(\x27.speed-indicator\x27, \x7b\n        opacity: 1,\n        y: -8,\n        duration: 0.4,\n        ease: \x27power2.out\x27\n      \x7d, 1.3);\n      \n      // Animation completes at 1.7s, holds final position\n      \n      return tl;\n    "

def staleDataProblemHtml : String := "\n      <div class=\"stale-container\">\n        <div class=\"warning-label\">But There\x27s a Problem</div>\n        \n        <div class=\"scenario\">\n          <div class=\"action-box\">\n            <div class=\"action-icon\">✏️</div>\n            <div class=\"action-text\">User updates profile</div>\n          </div>\n          \n          <div class=\"vs-arrow\">→</div>\n          \n          <div class=\"cache-box\">\n            <div class=\"cache-icon\">💾</div>\n            <div class=\"cache-status\">Still shows old data</div>\n            <div class=\"stale-badge\">⚠️ STALE</div>\n          </div>\n        </div>\n        \n        <div class=\"problem-text\">Cached data gets stale</div>\n      </div>\n    "
def staleDataProblemCss : String := "\n      .stale-container \x7b\n        width: 100%;\n        height: 100%;\n        display: flex;\n        flex-direction: column;\n        align-items: center;\n        justify-content: center;\n        gap: 0.64rem;\n      \x7d\n      \n      .warning-label \x7b\n        font-size: 0.96rem;\n        font-weight: 900;\n        color: #ff9900;\n        text-transform: uppercase;\n        letter-spacing: 0.6px;\n        text-shadow: 0 0 16px rgba(255, 153, 0, 0.8);\n        opacity: 0;\n      \x7d\n      \n      .scenario \x7b\n        display: flex;\n        align-items: center;\n        gap: 0.64rem;\n        opacity: 0;\n      \x7d\n      \n      .action-box \x7b\n        display: flex;\n        flex-direction: column;\n        align-items: center;\n        gap: 0.24rem;\n        padding: 0.56rem 0.8rem;\n        background: rgba(0, 243, 255, 0.1);\n        border: 2px solid #00f3ff;\n        border-radius: 8px;\n      \x7d\n      \n      .action-icon \x7b\n        font-size: 1.44rem;\n      \x7d\n      \n      .action-text \x7b\n        font-size: 0.6rem;\n        font-weight: 800;\n        color: #00f3ff;\n        text-transform: uppercase;\n        text-align: center;\n        line-height: 1.2;\n      \x7d\n      \n      .vs-arrow \x7b\n        font-size: 1.44rem;\n        color: #ffd700;\n        font-weight: 900;\n      \x7d\n      \n      .cache-box \x7b\n        display: flex;\n        flex-direction: column;\n        align-items: center;\n        gap: 0.24rem;\n        padding: 0.64rem 0.88rem;\n        background: rgba(255, 153, 0, 0.15);\n        border: 2px solid #ff9900;\n        border-radius: 10px;\n        box-shadow: 0 0 24px rgba(255, 153, 0, 0.5);\n      \x7d\n      \n      .cache-icon \x7b\n        font-size: 1.6rem;\n      \x7d\n      \n      .cache-status \x7b\n        font-size: 0.6rem;\n        font-weight: 800;\n        color: #ff9900;\n        text-transform: uppercase;\n        text-align: center;\n        line-height: 1.2;\n      \x7d\n      \n      .stale-badge \x7b\n        font-size: 0.56rem;\n        font-weight: 900;\n        color: #ff9900;\n        padding: 0.24rem 0.48rem;\n        background: rgba(255, 153, 0, 0.2);\n        border: 2px solid #ff9900;\n        border-radius: 6px;\n        text-transform: uppercase;\n      \x7d\n      \n      .problem-text \x7b\n        font-size: 0.8rem;\n        font-weight: 800;\n        color: #ff9900;\n        text-transform: uppercase;\n        font-style: italic;\n        opacity: 0;\n      \x7d\n    "
def staleDataProblemScript : String := "\n      const tl = gsap.timeline();\n      \n      tl.to(\x27.warning-label\x27, \x7b\n        opacity: 1,\n        y: -8,\n        duration: 0.4,\n        ease: \x27power2.out\x27\n      \x7d, 0);\n      \n      tl.to(\x27.scenario\x27, \x7b\n        opacity: 1,\n        duration: 0.3,\n        ease: \x27power2.out\x27\n      \x7d, 0.4);\n      \n      tl.from(\x27.action-box\x27, \x7b\n        x: -30,\n        scale: 0,\n        duration: 0.4,\n        ease: \x27back.out(2)\x27\n      \x7d, 0.7);\n      \n      tl.from(\x27.vs-arrow\x27, \x7b\n        scale: 0,\n        duration: 0.2,\n        ease: \x27back.out(3)\x27\n      \x7d, 1.0);\n      \n      tl.from(\x27.cache-box\x27, \x7b\n        x: 30,\n        scale: 0,\n        duration: 0.4,\n        ease: \x27back.out(2)\x27\n      \x7d, 1.2);\n      \n      tl.to(\x27.problem-text\x27, \x7b\n        opacity: 1,\n        y: -6,\n        duration: 0.3,\n        ease: \x27power2.out\x27\n      \x7d, 1.7);\n      \n      // Animation completes at 2.0s, holds final position\n      \n      return tl;\n    "

def ttlSolutionHtml : String := "\n      <div class=\"ttl-container\">\n        <div class=\"solution-title\">Set a TTL</div>\n        <div class=\"subtitle\">(Time To Live)</div>\n        \n        <div class=\"ttl-options\">\n          <div class=\"ttl-option opt-1\">\n            <div class=\"opt-time\">30 sec</div>\n          </div>\n          <div class=\"ttl-option opt-2\">\n            <div class=\"opt-time\">5 min</div>\n          </div>\n          <div class=\"ttl-option opt-3\">\n            <div class=\"opt-time\">1 hour</div>\n          </div>\n        </div>\n        \n        <div class=\"expiry-flow\">\n          <div class=\"flow-icon\">⏱️</div>\n          <div class=\"flow-text\">After TTL → Cache Expires</div>\n        </div>\n        \n        <div class=\"result-badge\">\n          <span class=\"badge-icon\">✓</span>\n          <span class=\"badge-text\">Fresh Data</span>\n        </div>\n      </div>\n    "
def ttlSolutionCss : String := "\n      .ttl-container \x7b\n        width: 100%;\n        height: 100%;\n        display: flex;\n        flex-direction: column;\n        align-items: center;\n        justify-content: center;\n        gap: 0.48rem;\n      \x7d\n      \n      .solution-title \x7b\n        font-size: 1.12rem;\n        font-weight: 900;\n        color: #00ff9d;\n        text-transform: uppercase;\n        letter-spacing: 0.8px;\n        text-shadow: 0 0 20px rgba(0, 255, 157, 0.8);\n        opacity: 0;\n      \x7d\n      \n      .subtitle \x7b\n        font-size: 0.64rem;\n        font-weight: 700;\n        color: #999;\n        font-style: italic;\n        opacity: 0;\n      \x7d\n      \n      .ttl-options \x7b\n        display: flex;\n        gap: 0.48rem;\n        margin-top: 0.32rem;\n        opacity: 0;\n      \x7d\n      \n      .ttl-option \x7b\n        padding: 0.48rem 0.72rem;\n        background: rgba(0, 243, 255, 0.1);\n        border: 2px solid #00f3ff;\n        border-radius: 8px;\n        box-shadow: 0 0 16px rgba(0, 243, 255, 0.3);\n      \x7d\n      \n      .opt-time \x7b\n        font-size: 0.72rem;\n        font-weight: 900;\n        color: #00f3ff;\n        font-family: \x27JetBrains Mono\x27, monospace;\n        text-transform: uppercase;\n      \x7d\n      \n      .expiry-flow \x7b\n        display: flex;\n        align-items: center;\n        gap: 0.48rem;\n        padding: 0.48rem 0.88rem;\n        background: rgba(255, 215, 0, 0.1);\n        border: 2px solid #ffd700;\n        border-radius: 8px;\n        margin-top: 0.32rem;\n        opacity: 0;\n      \x7d\n      \n      .flow-icon \x7b\n        font-size: 1.28rem;\n      \x7d\n      \n      .flow-text \x7b\n        font-size: 0.64rem;\n        font-weight: 800;\n        color: #ffd700;\n        text-transform: uppercase;\n      \x7d\n      \n      .result-badge \x7b\n        display: flex;\n        align-items: center;\n        gap: 0.4rem;\n        padding: 0.48rem 0.88rem;\n        background: rgba(0, 255, 157, 0.15);\n        border: 2px solid #00ff9d;\n        border-radius: 8px;\n        box-shadow: 0 0 20px rgba(0, 255, 157, 0.4);\n        opacity: 0;\n      \x7d\n      \n      .badge-icon \x7b\n        font-size: 1.04rem;\n        color: #00ff9d;\n        font-weight: 900;\n      \x7d\n      \n      .badge-text \x7b\n        font-size: 0.72rem;\n        font-weight: 900;\n        color: #00ff9d;\n        text-transform: uppercase;\n      \x7d\n    "
def ttlSolutionScript : String := "\n      const tl = gsap.timeline();\n      \n      tl.to(\x27.solution-title\x27, \x7b\n        opacity: 1,\n        y: -8,\n        duration: 0.4,\n        ease: \x27power2.out\x27\n      \x7d, 0);\n      \n      tl.to(\x27.subtitle\x27, \x7b\n        opacity: 1,\n        y: -4,\n        duration: 0.3,\n        ease: \x27power2.out\x27\n      \x7d, 0.4);\n      \n      tl.to(\x27.ttl-options\x27, \x7b\n        opacity: 1,\n        duration: 0.3,\n        ease: \x27power2.out\x27\n      \x7d, 0.7);\n      \n      tl.from([\x27.opt-1\x27, \x27.opt-2\x27, \x27.opt-3\x27], \x7b\n        scale: 0,\n        rotation: -5,\n        duration: 0.3,\n        stagger: 0.1,\n        ease: \x27back.out(2)\x27\n      \x7d, 1.0);\n      \n      tl.to(\x27.expiry-flow\x27, \x7b\n        opacity: 1,\n        y: -6,\n        duration: 0.4,\n        ease: \x27power2.out\x27\n      \x7d, 1.6);\n      \n      tl.to(\x27.result-badge\x27, \x7b\n        opacity: 1,\n        scale: 1,\n        y: -6,\n        duration: 0.4,\n        ease: \x27back.out(2)\x27\n      \x7d, 2.1);\n      \n      // Animation completes at 2.5s, holds final position\n      \n      return tl;\n    "

def cacheIntelligentlyHtml : String := "\n      <div class=\"advice-container\">\n        <div class=\"main-message\">\n          <div class=\"message-icon\">🧠</div>\n          <div class=\"message-text\">Cache Intelligently</div>\n        </div>\n        \n        <div class=\"benefits-grid\">\n          <div class=\"benefit-item\">\n            <div class=\"benefit-icon\">⚡</div>\n            <div class=\"benefit-label\">Faster</div>\n          </div>\n          <div class=\"benefit-item\">\n            <div class=\"benefit-icon\">💰</div>\n            <div class=\"benefit-label\">Cheaper</div>\n          </div>\n          <div class=\"benefit-item\">\n            <div class=\"benefit-icon\">😊</div>\n            <div class=\"benefit-label\">Happy Users</div>\n          </div>\n        </div>\n        \n        <div class=\"thank-you\">Your users will thank you</div>\n      </div>\n    "
def cacheIntelligentlyCss : String := "\n      .advice-container \x7b\n        width: 100%;\n        height: 100%;\n        display: flex;\n        flex-direction: column;\n        align-items: center;\n        justify-content: center;\n        gap: 0.72rem;\n      \x7d\n      \n      .main-message \x7b\n        display: flex;\n        align-items: center;\n        gap: 0.64rem;\n        padding: 0.88rem 1.36rem;\n        background: linear-gradient(135deg, rgba(0, 255, 157, 0.2), rgba(0, 243, 255, 0.2));\n        border: 3px solid #00ff9d;\n        border-radius: 13px;\n        box-shadow: 0 0 32px rgba(0, 255, 157, 0.6);\n        opacity: 0;\n      \x7d\n      \n      .message-icon \x7b\n        font-size: 2.4rem;\n      \x7d\n      \n      .message-text \x7b\n        font-size: 1.2rem;\n        font-weight: 900;\n        color: #00ff9d;\n        text-transform: uppercase;\n        letter-spacing: 0.8px;\n        text-shadow: 0 0 20px rgba(0, 255, 157, 0.8);\n      \x7d\n      \n      .benefits-grid \x7b\n        display: flex;\n        gap: 0.56rem;\n        opacity: 0;\n      \x7d\n      \n      .benefit-item \x7b\n        display: flex;\n        flex-direction: column;\n        align-items: center;\n        gap: 0.24rem;\n        padding: 0.56rem 0.72rem;\n        background: rgba(0, 243, 255, 0.1);\n        border: 2px solid #00f3ff;\n        border-radius: 8px;\n        box-shadow: 0 0 16px rgba(0, 243, 255, 0.3);\n        min-width: 72px;\n      \x7d\n      \n      .benefit-icon \x7b\n        font-size: 1.44rem;\n      \x7d\n      \n      .benefit-label \x7b\n        font-size: 0.6rem;\n        font-weight: 800;\n        color: #fff;\n        text-transform: uppercase;\n      \x7d\n      \n      .thank-you \x7b\n        font-size: 0.8rem;\n        font-weight: 800;\n        color: #ffd700;\n        text-transform: uppercase;\n        font-style: italic;\n        opacity: 0;\n      \x7d\n    "
def cacheIntelligentlyScript : String := "\n      const tl = gsap.timeline();\n      \n      tl.to(\x27.main-message\x27, \x7b\n        opacity: 1,\n        scale: 1,\n        duration: 0.5,\n        ease: \x27back.out(2)\x27\n      \x7d, 0);\n      \n      tl.to(\x27.main-message\x27, \x7b\n        boxShadow: \x270 0 48px rgba(0, 255, 157, 0.9)\x27,\n        duration: 0.2,\n        yoyo: true,\n        repeat: 1\n      \x7d, 0.5);\n      \n      tl.to(\x27.benefits-grid\x27, \x7b\n        opacity: 1,\n        y: -8,\n        duration: 0.4,\n        ease: \x27power2.out\x27\n      \x7d, 0.9);\n      \n      tl.from(\x27.benefit-item\x27, \x7b\n        scale: 0,\n        rotation: -10,\n        duration: 0.4,\n        stagger: 0.12,\n        ease: \x27back.out(2)\x27\n      \x7d, 1.3);\n      \n      tl.to(\x27.thank-you\x27, \x7b\n        opacity: 1,\n        y: -6,\n        duration: 0.4,\n        ease: \x27power2.out\x27\n      \x7d, 2.0);\n      \n      // Animation completes at 2.4s, holds final position\n      \n      return tl;\n    "


/-!
## Component Contract and built-in library

Embedding of `src/animationComponents/types.ts` and of every component
registered by `src/animationComponents/library/index.ts`.
-/

/-- `ParamSchema.type` (types.ts line 11). -/
inductive ParamType where
  | string | number | color | boolean | array
deriving DecidableEq, Repr

/-- One entry of a component's `paramsSchema` (types.ts lines 10-16). -/
structure ParamSchema where
  type : ParamType
  description : String
  required : Bool
  default : Option Value := none
  options : Option (List String) := none
deriving DecidableEq, Repr

/-- The result of a component's `render` (types.ts lines 31-35). -/
structure RenderOutput where
  html : String
  css : String
  script : String
deriving DecidableEq, Repr

/-- `AnimationComponent` (types.ts lines 18-36). -/
structure AnimationComponent where
  id : String
  name : String
  description : String
  category : String
  paramsSchema : List (String × ParamSchema)
  render : Params → ℚ → RenderOutput

/-- `ComponentSelection` (types.ts lines 38-42). -/
structure ComponentSelection where
  segmentId : Int
  componentId : String
  params : Params

/-- The `Segment` shape consumed by the assembler (registry.ts lines
82-87). -/
structure Segment where
  id : Int
  startTime : ℚ
  endTime : ℚ
  text : String
deriving DecidableEq, Repr

/-- Emphasis.ts line 56: `sizeMap[size as keyof typeof sizeMap] || '2.2em'`
(JavaScript object indexing by the string form of `size`; any non-key yields
`undefined`, caught by the `||`). -/
def emphasisFontSize (size : Value) : String :=
  match size with
  | .str "small" => "1.5em"
  | .str "medium" => "1.8em"
  | .str "large" => "2.2em"
  | _ => "2.2em"

/-- `EmphasisComponent` (Emphasis.ts lines 8-129).  The destructuring
`const { text, color = '#ffd700', glowColor = '#ffd700', size = 'large' } =
params` leaves `text` possibly `undefined` (no destructuring default). -/
def EmphasisComponent : AnimationComponent where
  id := "emphasis"
  name := "Emphasis"
  description := "Large centered text with glow and scale animation to emphasize key points"
  category := "emphasis"
  paramsSchema :=
    [("text", { type := .string,
                description := "The key message text to emphasize (extract from segment)",
                required := true, default := some (.str "Key Point") }),
     ("color", { type := .color, description := "Text color",
                 required := false, default := some (.str "#ffd700") }),
     ("glowColor", { type := .color, description := "Glow effect color",
                     required := false, default := some (.str "#ffd700") }),
     ("size", { type := .string, description := "Font size (small, medium, large)",
                required := false, default := some (.str "large"),
                options := some ["small", "medium", "large"] })]
  render := fun params duration =>
    let text : Option Value := lookupParam params "text"
    let color : Value := destrD (lookupParam params "color") (.str "#ffd700")
    let glowColor : Value := destrD (lookupParam params "glowColor") (.str "#ffd700")
    let size : Value := destrD (lookupParam params "size") (.str "large")
    let fontSize : String := emphasisFontSize size
    { html := emphasisHtml1 ++ optStr text ++ emphasisHtml2
      css := emphasisCss1 ++ fontSize ++ emphasisCss2 ++ valStr color ++
             emphasisCss3 ++ valStr glowColor ++ emphasisCss4 ++
             valStr glowColor ++ emphasisCss5
      script := emphasisScript1 ++ jsNum duration ++ emphasisScript2 ++
                valStr glowColor ++ emphasisScript3 ++ valStr glowColor ++
                emphasisScript4 }

/-- TextDisplay.ts line 170: `const text = params.text || 'Sample Text';` —
the text the fallback component displays. -/
def textDisplayText (params : Params) : Value :=
  jsOr (lookupParam params "text") (.str "Sample Text")

/-- `TextDisplay` (second document of Emphasis.ts, lines 137-236): the
universal fallback component, id `text_display`.  All four parameters are
read with JavaScript `||` fallbacks. -/
def TextDisplay : AnimationComponent where
  id := "text_display"
  name := "Text Display"
  description := "Simple centered text display (fallback)"
  category := "text"
  paramsSchema :=
    [("text", { type := .string, description := "Text to display",
                required := true, default := some (.str "Sample Text") }),
     ("fontSize", { type := .string, description := "Font size",
                    required := false, default := some (.str "2rem") }),
     ("color", { type := .string, description := "Text color",
                 required := false, default := some (.str "#ffffff") }),
     ("bgColor", { type := .string, description := "Background color",
                   required := false, default := some (.str "#333333") })]
  render := fun params duration =>
    let text : Value := textDisplayText params
    let fontSize : Value := jsOr (lookupParam params "fontSize") (.str "2rem")
    let color : Value := jsOr (lookupParam params "color") (.str "#ffffff")
    let bgColor : Value := jsOr (lookupParam params "bgColor") (.str "#333333")
    { html := textDisplayHtml1 ++ valStr text ++ textDisplayHtml2
      css := textDisplayCss1 ++ valStr bgColor ++ textDisplayCss2 ++
             valStr fontSize ++ textDisplayCss3 ++ valStr color ++ textDisplayCss4
      script := textDisplayScript1 ++ jsNum (duration - 8/10) ++ textDisplayScript2 }

/-- `SlowAppHook` (SlowAppHook.ts): empty `paramsSchema`; `render` ignores
both `params` and `duration` (its template literals contain no
interpolation). -/
def SlowAppHook : AnimationComponent where
  id := "slow_app_hook"
  name := "Slow App Hook"
  description := "Opening hook - your app is slow every page load hits the database"
  category := "visual"
  paramsSchema := []
  render := fun _ _ =>
    { html := slowAppHookHtml, css := slowAppHookCss, script := slowAppHookScript }

/-- `ExpensiveAndSlow` (ExpensiveAndSlow.ts): constant render. -/
def ExpensiveAndSlow : AnimationComponent where
  id := "expensive_and_slow"
  name := "Expensive And Slow"
  description := "Problem emphasis - expensive slow users are leaving"
  category := "visual"
  paramsSchema := []
  render := fun _ _ =>
    { html := expensiveAndSlowHtml, css := expensiveAndSlowCss,
      script := expensiveAndSlowScript }

/-- `CachingSolution`: constant render. -/
def CachingSolution : AnimationComponent where
  id := "caching_solution"
  name := "Caching Solution"
  description := "Solution reveal - caching fixes the slow app problem"
  category := "visual"
  paramsSchema := []
  render := fun _ _ =>
    { html := cachingSolutionHtml, css := cachingSolutionCss,
      script := cachingSolutionScript }

/-- `StoreInMemory`: constant render. -/
def StoreInMemory : AnimationComponent where
  id := "store_in_memory"
  name := "Store In Memory"
  description := "Store frequent data in memory using Redis or Memcached"
  category := "visual"
  paramsSchema := []
  render := fun _ _ =>
    { html := storeInMemoryHtml, css := storeInMemoryCss,
      script := storeInMemoryScript }

/-- `FirstRequestFlow`: constant render. -/
def FirstRequestFlow : AnimationComponent where
  id := "first_request_flow"
  name := "First Request Flow"
  description := "First request flow - hits database then saves result to cache"
  category := "visual"
  paramsSchema := []
  render := fun _ _ =>
    { html := firstRequestFlowHtml, css := firstRequestFlowCss,
      script := firstRequestFlowScript }

/-- `CacheHit`: constant render. -/
def CacheHit : AnimationComponent where
  id := "cache_hit"
  name := "Cache Hit"
  description := "Cache hit - next 1000 requests instant from cache lightning fast"
  category := "visual"
  paramsSchema := []
  render := fun _ _ =>
    { html := cacheHitHtml, css := cacheHitCss, script := cacheHitScript }

/-- `StaleDataProblem`: constant render. -/
def StaleDataProblem : AnimationComponent where
  id := "stale_data_problem"
  name := "Stale Data Problem"
  description := "Problem with caching - cached data gets stale showing old data"
  category := "visual"
  paramsSchema := []
  render := fun _ _ =>
    { html := staleDataProblemHtml, css := staleDataProblemCss,
      script := staleDataProblemScript }

/-- `TTLSolution`: constant render. -/
def TTLSolution : AnimationComponent where
  id := "ttl_solution"
  name := "TTL Solution"
  description := "TTL solution - set time to live so cache expires and gets fresh data"
  category := "visual"
  paramsSchema := []
  render := fun _ _ =>
    { html := ttlSolutionHtml, css := ttlSolutionCss, script := ttlSolutionScript }

/-- `CacheIntelligently`: constant render. -/
def CacheIntelligently : AnimationComponent where
  id := "cache_intelligently"
  name := "Cache Intelligently"
  description := "Final message - cache intelligently your users will thank you"
  category := "visual"
  paramsSchema := []
  render := fun _ _ =>
    { html := cacheIntelligentlyHtml, css := cacheIntelligentlyCss,
      script := cacheIntelligentlyScript }

/-- The component registry's backing store after the registration sequence of
`library/index.ts` (a `Map` keyed by component id preserves insertion order;
no id is registered twice). -/
def registeredComponents : List AnimationComponent :=
  [TextDisplay, EmphasisComponent, SlowAppHook, ExpensiveAndSlow,
   CachingSolution, StoreInMemory, FirstRequestFlow, CacheHit,
   StaleDataProblem, TTLSolution, CacheIntelligently]

/-- `ComponentRegistry.get` (registry.ts lines 15-17). -/
def ComponentRegistry.get (id : String) : Option AnimationComponent :=
  registeredComponents.find? (fun c => c.id == id)
def sceneHtmlPart1 : String := "\n    <!-- ========================================\n         SEGMENT "
-- hole: segment.id
def sceneHtmlPart2 : String := ": "
-- hole: segment.startTime.toFixed(1)
def sceneHtmlPart3 : String := "s - "
-- hole: segment.endTime.toFixed(1)
def sceneHtmlPart4 : String := "s\n         \""
-- hole: segment.text
def sceneHtmlPart5 : String := "\"\n         Component: "
-- hole: component.name
def sceneHtmlPart6 : String := "\n         ======================================== -->\n    <div id=\"s"
-- hole: segment.id
def sceneHtmlPart7 : String := "\" class=\"scene\" data-start=\""
-- hole: segment.startTime
def sceneHtmlPart8 : String := "\" data-end=\""
-- hole: segment.endTime
def sceneHtmlPart9 : String := "\">\n      "
-- hole: html
def sceneHtmlPart10 : String := "\n    </div>\n    "
def sceneCssPart1 : String := "\n    /* Segment "
-- hole: segment.id
def sceneCssPart2 : String := " - "
-- hole: component.name
def sceneCssPart3 : String := " */\n    #s"
-- hole: segment.id
def sceneCssPart4 : String := " \x7b\n      "
-- hole: css
def sceneCssPart5 : String := "\n    \x7d\n    "
def sceneScriptPart1 : String := "\n    /* Animation for Segment "
-- hole: segment.id
def sceneScriptPart2 : String := " */\n    function animateS"
-- hole: segment.id
def sceneScriptPart3 : String := "() \x7b\n      "
-- hole: script
def sceneScriptPart4 : String := "\n    \x7d\n    "
def docPart1 : String := "<!DOCTYPE html>\n<html lang=\"en\">\n<head>\n  <meta charset=\"UTF-8\">\n  <meta name=\"viewport\" content=\"width=device-width, initial-scale=1.0\">\n  <title>Component-Based Animation</title>\n  \n  <!-- GSAP Core + Plugins -->\n  <script src=\"https://cdnjs.cloudflare.com/ajax/libs/gsap/3.12.5/gsap.min.js\"></script>\n  <script src=\"https://cdnjs.cloudflare.com/ajax/libs/gsap/3.12.5/MotionPathPlugin.min.js\"></script>\n  <script src=\"https://cdnjs.cloudflare.com/ajax/libs/gsap/3.12.5/DrawSVGPlugin.min.js\"></script>\n  <script>\n    gsap.registerPlugin(MotionPathPlugin);\n  </script>\n  \n  <!-- Fonts -->\n  <link href=\"https://fonts.googleapis.com/css2?family=Oswald:wght@400;700;900&family=JetBrains+Mono:wght@400;700&display=swap\" rel=\"stylesheet\">\n  \n  <style>\n    :root \x7b\n      --bg-deep: #050505;\n      --primary: #00f3ff;\n      --success: #00ff9d;\n      --warning: #ffd700;\n      --danger: #ff0055;\n      --white: #ffffff;\n    \x7d\n    \n    * \x7b\n      box-sizing: border-box;\n    \x7d\n    \n    body, html \x7b\n      margin: 0;\n      padding: 0;\n      width: 100%;\n      height: 100%;\n      overflow: hidden;\n      background: var(--bg-deep);\n      color: var(--white);\n      font-family: \x27Oswald\x27, sans-serif;\n    \x7d\n    \n    * \x7b\n      box-sizing: border-box;\n    \x7d\n    \n    #scene-container \x7b\n      position: relative;\n      width: 100%;\n      height: 100%;\n      display: flex;\n      align-items: center;\n      justify-content: center;\n      overflow: hidden;\n    \x7d\n    \n    .scene \x7b\n      position: absolute;\n      top: 0;\n      left: 0;\n      width: 100%;\n      height: 100%;\n      display: none;\n      opacity: 0;\n    \x7d\n    \n    .scene.active \x7b\n      display: flex;\n      align-items: center;\n      justify-content: center;\n      opacity: 1;\n    \x7d\n    \n    .scene.active > * \x7b\n      transform: scale(0.7);\n      transform-origin: center center;\n    \x7d\n    \n    "
-- hole: allCSS
def docPart2 : String := "\n  </style>\n</head>\n<body>\n  <div id=\"scene-container\">\n    "
-- hole: allHTML
def docPart3 : String := "\n  </div>\n  \n  <script>\n    console.log(\x27🎬 Component-based animation system initialized\x27);\n    \n    /* Scene configuration */\n    const scenes = "
-- hole: JSON.stringify(sceneData, null, 2)
def docPart4 : String := ";\n    console.log(\x27📋 Scenes:\x27, scenes);\n    \n    let currentScene = null;\n    const sceneTimelines = \x7b\x7d;\n    \n    "
-- hole: allScripts
def docPart5 : String := "\n    \n    /* Initialize all timelines */\n    try \x7b\n      "
-- hole: selections.map(s => {         const segment = segments.find(seg => seg.id === s.segmentId);         return segment ? `sc
def docPart6 : String := "\n      console.log(\x27✅ Timelines initialized:\x27, Object.keys(sceneTimelines));\n    \x7d catch (err) \x7b\n      console.error(\x27❌ Timeline initialization error:\x27, err);\n    \x7d\n    \n    /* Show/hide scene based on time */\n    function showScene(sceneId) \x7b\n      if (currentScene === sceneId) return;\n      \n      /* Hide all scenes */\n      document.querySelectorAll(\x27.scene\x27).forEach(el => \x7b\n        el.style.display = \x27none\x27;\n        el.style.opacity = \x270\x27;\n        el.classList.remove(\x27active\x27);\n      \x7d);\n      \n      /* Show target scene */\n      const sceneEl = document.getElementById(sceneId);\n      if (sceneEl) \x7b\n        sceneEl.style.display = \x27block\x27;\n        sceneEl.style.opacity = \x271\x27;\n        sceneEl.classList.add(\x27active\x27);\n        currentScene = sceneId;\n        console.log(\x27👁️ Showing scene:\x27, sceneId);\n      \x7d else \x7b\n        console.error(\x27❌ Scene not found:\x27, sceneId);\n      \x7d\n    \x7d\n    \n    /* Time update listener - sync with video */\n    window.addEventListener(\x27message\x27, (e) => \x7b\n      if (e.data.type === \x27timeupdate\x27) \x7b\n        const time = e.data.time;\n        \n        /* Find active scene */\n        for (const scene of scenes) \x7b\n          if (time >= scene.start && time < scene.end) \x7b\n            showScene(scene.id);\n            \n            /* Seek timeline to correct position */\n            const timeline = sceneTimelines[scene.id];\n            if (timeline) \x7b\n              const relativeTime = time - scene.start;\n              timeline.seek(relativeTime);\n            \x7d\n            break;\n          \x7d\n        \x7d\n      \x7d\n    \x7d);\n    \n    /* Fallback: show first scene after 1 second */\n    setTimeout(() => \x7b\n      if (!currentScene && scenes.length > 0) \x7b\n        showScene(scenes[0].id);\n        console.log(\x27⏰ Fallback: showing first scene\x27);\n      \x7d\n    \x7d, 1000);\n    \n    console.log(\x27✅ Scene manager ready\x27);\n  </script>\n</body>\n</html>"

/-!
## Composition Assembler

Embedding of `renderComponentBasedHTML` (registry.ts lines 93-345).  The
`forEach` over `selections` with its two early-`return` skip paths and four
string accumulators is modelled as a `filterMap` producing one structured
`SceneOutput` per non-skipped selection, whose fields are joined exactly as
the accumulators concatenate.
-/

/-- JavaScript `q.toFixed(1)` (used only in an HTML comment of the scene
container); the rounding details are approximated and not depended on by any
claim. -/
def toFixed1 (q : ℚ) : String :=
  let n : Int := ⌊q * 10 + 1/2⌋
  toString (n / 10) ++ "." ++ toString (n % 10).natAbs

/-- registry.ts line 125: `const duration = segment.endTime -
segment.startTime;` — the duration handed to `component.render`, with no
clamping. -/
def computedDuration (segment : Segment) : ℚ :=
  segment.endTime - segment.startTime

/-- registry.ts lines 106-117: look the selection's component up, falling
back to `text_display` when absent (and skipping the selection when even the
fallback is missing). -/
def resolveComponent (componentId : String) : Option AnimationComponent :=
  match ComponentRegistry.get componentId with
  | some c => some c
  | none => ComponentRegistry.get "text_display"

/-- registry.ts line 128: `componentSettings[component.id] || {}`. -/
def lookupSettings (settings : List (String × Params)) (componentId : String) :
    Params :=
  ((settings.find? (fun p => p.1 == componentId)).map (·.2)).getD []

/-- registry.ts lines 129-134: `mergedParams = { ...customSettings,
...selection.params, ...(selection.componentId !== component.id ?
{ text: segment.text } : {}) }` — later spread wins, so the later-spread
lists come first under first-match lookup. -/
def mergedParamsOf (component : AnimationComponent) (segment : Segment)
    (sel : ComponentSelection) (settings : List (String × Params)) : Params :=
  (if sel.componentId ≠ component.id then [("text", Value.str segment.text)]
   else [])
  ++ sel.params ++ lookupSettings settings component.id

/-- The scene container wrap appended to `allHTML` (registry.ts lines
139-148). -/
def sceneContainerHtml (segment : Segment) (component : AnimationComponent)
    (html : String) : String :=
  sceneHtmlPart1 ++ toString segment.id ++ sceneHtmlPart2 ++
  toFixed1 segment.startTime ++ sceneHtmlPart3 ++ toFixed1 segment.endTime ++
  sceneHtmlPart4 ++ segment.text ++ sceneHtmlPart5 ++ component.name ++
  sceneHtmlPart6 ++ toString segment.id ++ sceneHtmlPart7 ++
  jsNum segment.startTime ++ sceneHtmlPart8 ++ jsNum segment.endTime ++
  sceneHtmlPart9 ++ html ++ sceneHtmlPart10

/-- The namespaced style block appended to `allCSS` (registry.ts lines
151-156). -/
def sceneCssWrap (segment : Segment) (component : AnimationComponent)
    (css : String) : String :=
  sceneCssPart1 ++ toString segment.id ++ sceneCssPart2 ++ component.name ++
  sceneCssPart3 ++ toString segment.id ++ sceneCssPart4 ++ css ++ sceneCssPart5

/-- The per-scene factory function appended to `allScripts` (registry.ts
lines 159-164): `function animateSN() { ...script... }`. -/
def sceneScriptWrap (segId : Int) (script : String) : String :=
  sceneScriptPart1 ++ toString segId ++ sceneScriptPart2 ++ toString segId ++
  sceneScriptPart3 ++ script ++ sceneScriptPart4

/-- What one iteration of the `selections.forEach` contributes: the four
accumulators' increments and the `sceneData` entry. -/
structure SceneOutput where
  sceneHtml : String
  sceneCss : String
  sceneScript : String
  dataEntry : SceneData

/-- One iteration of the `selections.forEach` body (registry.ts lines
105-172): `none` models the early-`return` skip paths (no component and no
fallback; segment not found). -/
def processSelection (segments : List Segment)
    (componentSettings : List (String × Params)) (sel : ComponentSelection) :
    Option SceneOutput :=
  match resolveComponent sel.componentId with
  | none => none
  | some component =>
    match segments.find? (fun s => s.id == sel.segmentId) with
    | none => none
    | some segment =>
      let duration := computedDuration segment
      let mergedParams := mergedParamsOf component segment sel componentSettings
      let out := component.render mergedParams duration
      some { sceneHtml := sceneContainerHtml segment component out.html
             sceneCss := sceneCssWrap segment component out.css
             sceneScript := sceneScriptWrap segment.id out.script
             dataEntry := { id := "s" ++ toString segment.id,
                            start := segment.startTime,
                            stop := segment.endTime } }

/-- All non-skipped scenes, in selection order. -/
def renderedScenes (selections : List ComponentSelection)
    (segments : List Segment) (settings : List (String × Params)) :
    List SceneOutput :=
  selections.filterMap (processSelection segments settings)

/-- The Scene Table (`sceneData`) of the merged document. -/
def sceneTable (selections : List ComponentSelection) (segments : List Segment)
    (settings : List (String × Params)) : List SceneData :=
  (renderedScenes selections segments settings).map (·.dataEntry)

/-- One line of the timeline-initialization block (registry.ts lines
276-279): `sceneTimelines.sN = animateSN();`, or the empty string when the
selection's segment is missing. -/
def initCallLine (segments : List Segment) (s : ComponentSelection) : String :=
  match segments.find? (fun seg => seg.id == s.segmentId) with
  | some seg => "sceneTimelines.s" ++ toString seg.id ++ " = animateS" ++
                toString seg.id ++ "();"
  | none => ""

/-- `JSON.stringify(sceneData, null, 2)` (registry.ts line 266),
approximated; no claim depends on the exact JSON layout. -/
def sceneDataJsonEntry (e : SceneData) : String :=
  "  \x7b\n    \"id\": \"" ++ e.id ++ "\",\n    \"start\": " ++ jsNum e.start ++
  ",\n    \"end\": " ++ jsNum e.stop ++ "\n  \x7d"

/-- `JSON.stringify(sceneData, null, 2)`, approximated. -/
def sceneDataJson (l : List SceneData) : String :=
  if l.isEmpty then "[]"
  else "[\n" ++ String.intercalate ",\n" (l.map sceneDataJsonEntry) ++ "\n]"

/-- `renderComponentBasedHTML` (registry.ts lines 93-345): the final merged
document string. -/
def renderComponentBasedHTML (selections : List ComponentSelection)
    (segments : List Segment) (settings : List (String × Params)) : String :=
  let scenes := renderedScenes selections segments settings
  let allHTML := String.join (scenes.map (·.sceneHtml))
  let allCSS := String.join (scenes.map (·.sceneCss))
  let allScripts := String.join (scenes.map (·.sceneScript))
  let sceneData := scenes.map (·.dataEntry)
  docPart1 ++ allCSS ++ docPart2 ++ allHTML ++ docPart3 ++
  sceneDataJson sceneData ++ docPart4 ++ allScripts ++ docPart5 ++
  String.intercalate "\n      " (selections.map (initCallLine segments)) ++
  docPart6

/-!
## Host player synchronization loop

Embedding of one iteration of `syncLoop` (the per-`requestAnimationFrame`
callback of the host player component, lines 368-403 of its source): while
the video is playing it posts `timeupdate` with the video's current time and
keeps the background audio in step with the video clock.  The literal `0.2`
drift tolerance is the rational `1/5`.
-/

/-- The media state one `syncLoop` iteration reads and writes:
`videoRef.current.paused/currentTime/readyState`, whether background audio is
attached (`audioRef.current && bgMusicUrl`), and
`audioRef.current.paused/currentTime`. -/
structure PlayerState where
  videoPaused : Bool
  videoTime : ℚ
  videoReadyState : ℕ
  audioPresent : Bool
  audioPaused : Bool
  audioTime : ℚ
deriving DecidableEq, Repr

/-- One `syncLoop` iteration: when the video is playing and audio is present
and playing, reset the audio position to the video time whenever
`Math.abs(audio.currentTime - time) > 0.2`; when audio is present but paused
and the video is ready (`readyState >= 3`), force-start it at the video
time. -/
def syncLoopStep (st : PlayerState) : PlayerState :=
  if st.videoPaused then st
  else
    let time := st.videoTime
    if st.audioPresent && !st.audioPaused then
      if |st.audioTime - time| > 1/5 then { st with audioTime := time } else st
    else if st.audioPresent && st.audioPaused && decide (3 ≤ st.videoReadyState) then
      { st with audioTime := time, audioPaused := false }
    else st

/-!
## Theorems
-/

theorem showScene_sceneTimelines (containers : List String) (st : DocState)
    (id : String) : (showScene containers st id).sceneTimelines = st.sceneTimelines := by
  unfold showScene
  split <;> [rfl; skip]
  split <;> rfl

theorem lookupTimeline_cons (k : String) (w : ℚ) (rest : List (String × ℚ))
    (id : String) :
    lookupTimeline ((k, w) :: rest) id =
      if k == id then some w else lookupTimeline rest id := by
  cases h : (k == id) <;> simp [lookupTimeline, List.find?, h]

theorem seekTimeline_cons (k : String) (w : ℚ) (rest : List (String × ℚ))
    (id : String) (t : ℚ) :
    seekTimeline ((k, w) :: rest) id t =
      (if k == id then (k, t) else (k, w)) :: seekTimeline rest id t := by
  simp [seekTimeline]

theorem lookupTimeline_seekTimeline (tls : List (String × ℚ)) (id : String)
    (v : ℚ) :
    lookupTimeline (seekTimeline tls id v) id =
      if (lookupTimeline tls id).isSome then some v else none := by
  induction tls with
  | nil => rfl
  | cons p rest ih =>
    obtain ⟨k, w⟩ := p
    cases h : (k == id) <;>
      simp [seekTimeline_cons, lookupTimeline_cons, h, ih]

theorem seekTimeline_idem (tls : List (String × ℚ)) (id : String) (v : ℚ) :
    seekTimeline (seekTimeline tls id v) id v = seekTimeline tls id v := by
  induction tls with
  | nil => rfl
  | cons p rest ih =>
    obtain ⟨k, w⟩ := p
    cases h : (k == id) <;> simp [seekTimeline_cons, h, ih]

theorem seekTimeline_of_absent (tls : List (String × ℚ)) (id : String)
    (v : ℚ) (h : lookupTimeline tls id = none) : seekTimeline tls id v = tls := by
  induction tls with
  | nil => rfl
  | cons p rest ih =>
    obtain ⟨k, w⟩ := p
    cases hk : (k == id)
    · rw [lookupTimeline_cons, if_neg (by simp [hk])] at h
      simp [seekTimeline_cons, hk, ih h]
    · rw [lookupTimeline_cons, if_pos (by simp [hk])] at h
      simp at h

/-- C1: for every `timeupdate` message carrying time `t`, the scene the
runtime makes active (visible, i.e. `currentScene`) is exactly the first
Scene Table entry, in table order, satisfying
`absoluteStart <= t < absoluteEnd` (half-open, so `t` equal to a start
activates that scene, and on overlap the earlier entry wins); when no entry
matches, the previous state is held. -/
theorem timeupdate_activates_first_match (containers : List String)
    (scenes : List SceneData) (st : DocState) (t : ℚ)
    (hc : ∀ sc ∈ scenes, sc.id ∈ containers) :
    (handleTimeUpdate containers scenes st t).currentScene =
      match scenes.find? (fun sc => decide (sc.start ≤ t ∧ t < sc.stop)) with
      | some sc => some sc.id
      | none => st.currentScene := by
  induction scenes with
  | nil => rfl
  | cons sc rest ih =>
    by_cases h : sc.start ≤ t ∧ t < sc.stop
    · have hm : sc.id ∈ containers := hc sc (List.mem_cons_self _ _)
      rw [List.find?_cons_of_pos _ (by simpa using h)]
      simp only [handleTimeUpdate, if_pos h]
      show (showScene containers st sc.id).currentScene = some sc.id
      unfold showScene
      by_cases hcur : st.currentScene = some sc.id
      · simp [hcur]
      · simp [hcur, hm]
    · rw [List.find?_cons_of_neg _ (by simpa using h)]
      have := ih (fun s hs => hc s (List.mem_cons_of_mem _ hs))
      simpa [handleTimeUpdate, h] using this

theorem timeupdate_activates_first_match_witness :
    (∀ sc ∈ ([⟨"s1", 0, 3⟩, ⟨"s2", 3, 6⟩] : List SceneData),
      sc.id ∈ ["s1", "s2"]) ∧
    (handleTimeUpdate ["s1", "s2"] [⟨"s1", 0, 3⟩, ⟨"s2", 3, 6⟩]
      ⟨some "s1", []⟩ 3).currentScene = some "s2" :=
  ⟨by decide,
   (timeupdate_activates_first_match ["s1", "s2"]
      [⟨"s1", 0, 3⟩, ⟨"s2", 3, 6⟩] ⟨some "s1", []⟩ 3 (by decide)).trans
     (by decide)⟩

theorem showScene_after (c : List String) (st : DocState) (id : String)
    (tls : List (String × ℚ)) :
    showScene c ⟨(showScene c st id).currentScene, tls⟩ id =
      ⟨(showScene c st id).currentScene, tls⟩ := by
  unfold showScene
  by_cases h1 : st.currentScene = some id
  · simp [h1]
  · by_cases h2 : id ∈ c <;> simp [h1, h2]

/-- C2: when `timeupdate(t)` matches the Scene Table entry `sc` (first match
in table order), the runtime seeks `sc`'s stored timeline to exactly
`t - sc.start` — on every such message, also when `sc` is already the current
scene (in which case the visibility state does not change) — and processing
the same `timeupdate(t)` twice is idempotent, so the timeline ends at the
same position both times. -/
theorem timeupdate_seeks_relative_time (containers : List String)
    (scenes : List SceneData) (st : DocState) (t : ℚ) (sc : SceneData)
    (hfind : scenes.find? (fun s => decide (s.start ≤ t ∧ t < s.stop)) = some sc) :
    lookupTimeline (handleTimeUpdate containers scenes st t).sceneTimelines sc.id =
      (if (lookupTimeline st.sceneTimelines sc.id).isSome then
        some (t - sc.start) else none)
    ∧ (st.currentScene = some sc.id →
        (handleTimeUpdate containers scenes st t).currentScene = some sc.id)
    ∧ handleTimeUpdate containers scenes (handleTimeUpdate containers scenes st t) t =
        handleTimeUpdate containers scenes st t := by
  induction scenes with
  | nil => simp [List.find?] at hfind
  | cons sc' rest ih =>
    by_cases h : sc'.start ≤ t ∧ t < sc'.stop
    · rw [List.find?_cons_of_pos _ (by simpa using h)] at hfind
      have hs : sc' = sc := by simpa using hfind
      subst hs
      simp only [handleTimeUpdate, if_pos h]
      refine ⟨?_, ?_, ?_⟩
      · rw [showScene_sceneTimelines]
        exact lookupTimeline_seekTimeline st.sceneTimelines sc'.id (t - sc'.start)
      · intro hcur
        show (showScene containers st sc'.id).currentScene = some sc'.id
        unfold showScene
        simp [hcur]
      · simp only [showScene_sceneTimelines, showScene_after, seekTimeline_idem]
    · rw [List.find?_cons_of_neg _ (by simpa using h)] at hfind
      have hrec := ih hfind
      simp only [handleTimeUpdate, if_neg h]
      exact ⟨hrec.1, hrec.2.1, hrec.2.2⟩

theorem timeupdate_seeks_relative_time_witness :
    ([(⟨"s1", 1, 4⟩ : SceneData)].find?
        (fun s => decide (s.start ≤ (5/2 : ℚ) ∧ (5/2 : ℚ) < s.stop)) =
      some ⟨"s1", 1, 4⟩) ∧
    lookupTimeline (handleTimeUpdate ["s1"] [⟨"s1", 1, 4⟩]
        ⟨some "s1", [("s1", 0)]⟩ (5/2)).sceneTimelines "s1" = some (3/2) ∧
    handleTimeUpdate ["s1"] [⟨"s1", 1, 4⟩]
        (handleTimeUpdate ["s1"] [⟨"s1", 1, 4⟩] ⟨some "s1", [("s1", 0)]⟩ (5/2))
        (5/2) =
      handleTimeUpdate ["s1"] [⟨"s1", 1, 4⟩] ⟨some "s1", [("s1", 0)]⟩ (5/2) := by
  have hfind : ([(⟨"s1", 1, 4⟩ : SceneData)].find?
      (fun s => decide (s.start ≤ (5/2 : ℚ) ∧ (5/2 : ℚ) < s.stop)) =
      some ⟨"s1", 1, 4⟩) := by
    rw [List.find?_cons_of_pos]
    simp only [decide_eq_true_eq]
    constructor <;> norm_num
  have h := timeupdate_seeks_relative_time ["s1"] [⟨"s1", 1, 4⟩]
    ⟨some "s1", [("s1", 0)]⟩ (5/2) ⟨"s1", 1, 4⟩ hfind
  refine ⟨hfind, h.1.trans ?_, h.2.2⟩
  have hk : (lookupTimeline [("s1", (0 : ℚ))] "s1").isSome = true := by
    simp [lookupTimeline, List.find?]
  rw [if_pos hk]
  norm_num

/-- C6 (counterexample): with three scenes whose factories are
`s1` (succeeds), `s2` (throws), `s3` (succeeds), the single `try`/`catch`
around the initialization block leaves `s3` with no stored timeline, and a
later `timeupdate(2)` shows scene `s3` but cannot seek it — the failure of
`s2`'s factory is not contained to scene `s2`. -/
theorem timeline_init_not_contained_counterexample :
    initTimelines [("s1", some 0), ("s2", none), ("s3", some 0)] = [("s1", 0)] ∧
    lookupTimeline
      (initTimelines [("s1", some 0), ("s2", none), ("s3", some 0)]) "s3" = none ∧
    (handleTimeUpdate ["s1", "s2", "s3"]
        [⟨"s1", 0, 1⟩, ⟨"s2", 1, 2⟩, ⟨"s3", 2, 3⟩]
        ⟨none, initTimelines [("s1", some 0), ("s2", none), ("s3", some 0)]⟩
        2).currentScene = some "s3" ∧
    (handleTimeUpdate ["s1", "s2", "s3"]
        [⟨"s1", 0, 1⟩, ⟨"s2", 1, 2⟩, ⟨"s3", 2, 3⟩]
        ⟨none, initTimelines [("s1", some 0), ("s2", none), ("s3", some 0)]⟩
        2).sceneTimelines = [("s1", 0)] := by
  refine ⟨rfl, rfl, ?_, ?_⟩ <;> decide

/-- C6 (amended): a throwing timeline factory aborts the whole remaining
initialization block (scenes after it lose their timelines; scenes before it
keep theirs), but the `timeupdate` handler itself keeps working: a matched
scene whose timeline is missing is still shown (its container becomes the
current scene) while the timeline store is left untouched, so subsequent
messages are still processed. -/
theorem timeline_init_abort_and_handler_robust :
    (∀ (pre post : List (String × Option ℚ)) (id : String),
      initTimelines (pre ++ (id, none) :: post) = initTimelines pre)
    ∧ (∀ (containers : List String) (scenes : List SceneData) (st : DocState)
        (t : ℚ) (sc : SceneData),
        scenes.find? (fun s => decide (s.start ≤ t ∧ t < s.stop)) = some sc →
        lookupTimeline st.sceneTimelines sc.id = none →
        (handleTimeUpdate containers scenes st t).sceneTimelines =
            st.sceneTimelines ∧
          (sc.id ∈ containers →
            (handleTimeUpdate containers scenes st t).currentScene = some sc.id)) := by
  constructor
  · intro pre post id
    induction pre with
    | nil => rfl
    | cons p rest ih =>
      obtain ⟨k, v⟩ := p
      cases v with
      | none => rfl
      | some w =>
        simp only [List.cons_append, initTimelines]
        exact congrArg (List.cons (k, w)) ih
  · intro containers scenes st t sc hfind habs
    induction scenes with
    | nil => simp [List.find?] at hfind
    | cons sc' rest ih =>
      by_cases h : sc'.start ≤ t ∧ t < sc'.stop
      · rw [List.find?_cons_of_pos _ (by simpa using h)] at hfind
        have hs : sc' = sc := by simpa using hfind
        subst hs
        simp only [handleTimeUpdate, if_pos h]
        refine ⟨?_, ?_⟩
        · rw [showScene_sceneTimelines, seekTimeline_of_absent _ _ _ habs]
        · intro hm
          show (showScene containers st sc'.id).currentScene = some sc'.id
          unfold showScene
          by_cases hcur : st.currentScene = some sc'.id
          · simp [hcur]
          · simp [hcur, hm]
      · rw [List.find?_cons_of_neg _ (by simpa using h)] at hfind
        simp only [handleTimeUpdate, if_neg h]
        exact ih hfind

theorem timeline_init_abort_and_handler_robust_witness :
    initTimelines [("a", some 0), ("b", none), ("c", some 1)] =
      initTimelines [("a", some 0)] ∧
    (handleTimeUpdate ["x"] [⟨"x", 0, 1⟩] ⟨none, []⟩ 0).sceneTimelines = [] ∧
    (handleTimeUpdate ["x"] [⟨"x", 0, 1⟩] ⟨none, []⟩ 0).currentScene = some "x" := by
  have h := timeline_init_abort_and_handler_robust
  refine ⟨h.1 [("a", some 0)] [("c", some 1)] "b", ?_, ?_⟩
  · exact (h.2 ["x"] [⟨"x", 0, 1⟩] ⟨none, []⟩ 0 ⟨"x", 0, 1⟩ (by decide) (by decide)).1
  · exact (h.2 ["x"] [⟨"x", 0, 1⟩] ⟨none, []⟩ 0 ⟨"x", 0, 1⟩ (by decide) (by decide)).2
      (by decide)

/-- C9: in the host player's per-frame loop, while the video is playing and
background audio is present and playing, a drift
`|audio.currentTime - video.currentTime|` exceeding the fixed `0.2`-second
tolerance makes the loop reset the audio position to the video's reported
time; otherwise the audio position is left untouched, so after each
iteration the audio is never more than the tolerance away from the video
clock — the video element is the clock authority. -/
theorem syncLoop_audio_follows_video_clock (st : PlayerState)
    (hv : st.videoPaused = false) (hp : st.audioPresent = true)
    (ha : st.audioPaused = false) :
    (|st.audioTime - st.videoTime| > 1/5 →
      (syncLoopStep st).audioTime = st.videoTime)
    ∧ (|st.audioTime - st.videoTime| ≤ 1/5 →
      (syncLoopStep st).audioTime = st.audioTime)
    ∧ |(syncLoopStep st).audioTime - st.videoTime| ≤ 1/5 := by
  unfold syncLoopStep
  simp only [hv, hp, ha, Bool.not_false, Bool.and_self, if_false,
    Bool.false_eq_true, ite_false, Bool.true_and]
  by_cases h : |st.audioTime - st.videoTime| > 1/5
  · simp only [if_pos h]
    refine ⟨fun _ => rfl, fun h' => absurd h (not_lt.mpr h'), ?_⟩
    simp
  · simp only [if_neg h]
    refine ⟨fun h' => absurd h' h, fun _ => rfl, ?_⟩
    exact le_of_not_lt h

theorem syncLoop_audio_follows_video_clock_witness :
    ((⟨false, 10, 4, true, false, 11⟩ : PlayerState).videoPaused = false) ∧
    (|(11 : ℚ) - 10| > 1/5) ∧
    (syncLoopStep ⟨false, 10, 4, true, false, 11⟩).audioTime = 10 := by
  refine ⟨rfl, by norm_num, ?_⟩
  exact (syncLoop_audio_follows_video_clock ⟨false, 10, 4, true, false, 11⟩
    rfl rfl rfl).1 (by norm_num)

theorem get_text_display : ComponentRegistry.get "text_display" = some TextDisplay := rfl

theorem resolveComponent_of_unknown (cid : String)
    (h : ComponentRegistry.get cid = none) :
    resolveComponent cid = some TextDisplay := by
  unfold resolveComponent
  rw [h]
  exact get_text_display

theorem resolveComponent_total (cid : String) :
    ∃ c, resolveComponent cid = some c := by
  unfold resolveComponent
  cases h : ComponentRegistry.get cid with
  | some c => exact ⟨c, rfl⟩
  | none => exact ⟨TextDisplay, get_text_display⟩

theorem processSelection_eq_some (segments : List Segment)
    (settings : List (String × Params)) (sel : ComponentSelection)
    (component : AnimationComponent) (segment : Segment)
    (hc : resolveComponent sel.componentId = some component)
    (hs : segments.find? (fun s => s.id == sel.segmentId) = some segment) :
    processSelection segments settings sel = some
      { sceneHtml := sceneContainerHtml segment component
          (component.render (mergedParamsOf component segment sel settings)
            (computedDuration segment)).html
        sceneCss := sceneCssWrap segment component
          (component.render (mergedParamsOf component segment sel settings)
            (computedDuration segment)).css
        sceneScript := sceneScriptWrap segment.id
          (component.render (mergedParamsOf component segment sel settings)
            (computedDuration segment)).script
        dataEntry := ⟨"s" ++ toString segment.id, segment.startTime,
          segment.endTime⟩ } := by
  unfold processSelection
  rw [hc, hs]

theorem processSelection_eq_none_of_no_segment (segments : List Segment)
    (settings : List (String × Params)) (sel : ComponentSelection)
    (h : ∀ seg ∈ segments, seg.id ≠ sel.segmentId) :
    processSelection segments settings sel = none := by
  obtain ⟨c, hc⟩ := resolveComponent_total sel.componentId
  unfold processSelection
  rw [hc, List.find?_eq_none.mpr (fun seg hseg => by simpa using h seg hseg)]

/-- C7: for `N` Selections, each referencing a provided Segment and with no
duplicate segment ids, the merged document has exactly `N` scene outputs
(containers) and exactly `N` Scene Table entries, in selection (= original
segment) order, and entry `i` carries that Segment's own `startTime` and
`endTime` as `absoluteStart`/`absoluteEnd` (not renormalized to 0). -/
theorem assembler_scene_count (selections : List ComponentSelection)
    (segments : List Segment) (settings : List (String × Params))
    (hseg : ∀ sel ∈ selections, ∃ seg ∈ segments, seg.id = sel.segmentId)
    (_hnodup : (selections.map (·.segmentId)).Nodup) :
    (renderedScenes selections segments settings).length = selections.length ∧
    (sceneTable selections segments settings).length = selections.length ∧
    List.Forall₂ (fun (sel : ComponentSelection) (e : SceneData) =>
        ∃ seg, segments.find? (fun s => s.id == sel.segmentId) = some seg ∧
          e = ⟨"s" ++ toString seg.id, seg.startTime, seg.endTime⟩)
      selections (sceneTable selections segments settings) := by
  have main : List.Forall₂ (fun (sel : ComponentSelection) (e : SceneData) =>
      ∃ seg, segments.find? (fun s => s.id == sel.segmentId) = some seg ∧
        e = ⟨"s" ++ toString seg.id, seg.startTime, seg.endTime⟩)
      selections (sceneTable selections segments settings) := by
    clear _hnodup
    induction selections with
    | nil => exact List.Forall₂.nil
    | cons sel rest ih =>
      obtain ⟨seg0, hmem, hid⟩ := hseg sel (List.mem_cons_self _ _)
      have hsome : (segments.find? (fun s => s.id == sel.segmentId)).isSome := by
        rw [List.find?_isSome]
        exact ⟨seg0, hmem, by simpa using hid⟩
      obtain ⟨segment, hfind⟩ := Option.isSome_iff_exists.mp hsome
      obtain ⟨component, hc⟩ := resolveComponent_total sel.componentId
      have hproc := processSelection_eq_some segments settings sel component
        segment hc hfind
      have hrest := ih (fun s hs => hseg s (List.mem_cons_of_mem _ hs))
      unfold sceneTable renderedScenes at *
      rw [List.filterMap_cons, hproc]
      exact List.Forall₂.cons ⟨segment, hfind, rfl⟩ hrest
  refine ⟨?_, ?_, main⟩
  · have := List.Forall₂.length_eq main
    unfold sceneTable at this
    rw [List.length_map] at this
    exact this.symm
  · exact (List.Forall₂.length_eq main).symm

theorem assembler_scene_count_witness :
    (∀ sel ∈ [(⟨1, "emphasis", []⟩ : ComponentSelection),
              ⟨2, "text_display", []⟩],
      ∃ seg ∈ [(⟨1, 0, 2, "Hello"⟩ : Segment), ⟨2, 2, 5, "World"⟩],
        seg.id = sel.segmentId) ∧
    (renderedScenes [⟨1, "emphasis", []⟩, ⟨2, "text_display", []⟩]
      [⟨1, 0, 2, "Hello"⟩, ⟨2, 2, 5, "World"⟩] []).length = 2 ∧
    (sceneTable [⟨1, "emphasis", []⟩, ⟨2, "text_display", []⟩]
      [⟨1, 0, 2, "Hello"⟩, ⟨2, 2, 5, "World"⟩] []).length = 2 := by
  have h := assembler_scene_count
    [⟨1, "emphasis", []⟩, ⟨2, "text_display", []⟩]
    [⟨1, 0, 2, "Hello"⟩, ⟨2, 2, 5, "World"⟩] []
    (by decide) (by decide)
  exact ⟨by decide, h.1, h.2.1⟩

/-- C10: a Selection whose `segmentId` matches no provided Segment is
silently skipped (its `forEach` iteration early-returns): the merged
document gets no scene container, no namespaced style, no factory (the
initialization line for it is the empty string), and no Scene Table entry
for it, while all other Selections are assembled exactly as without it. -/
theorem unknown_segment_selection_skipped (segments : List Segment)
    (settings : List (String × Params)) (sel : ComponentSelection)
    (sels1 sels2 : List ComponentSelection)
    (h : ∀ seg ∈ segments, seg.id ≠ sel.segmentId) :
    processSelection segments settings sel = none ∧
    renderedScenes (sels1 ++ sel :: sels2) segments settings =
      renderedScenes (sels1 ++ sels2) segments settings ∧
    sceneTable (sels1 ++ sel :: sels2) segments settings =
      sceneTable (sels1 ++ sels2) segments settings ∧
    initCallLine segments sel = "" := by
  have hnone := processSelection_eq_none_of_no_segment segments settings sel h
  have hscenes : renderedScenes (sels1 ++ sel :: sels2) segments settings =
      renderedScenes (sels1 ++ sels2) segments settings := by
    unfold renderedScenes
    rw [List.filterMap_append, List.filterMap_append, List.filterMap_cons, hnone]
  refine ⟨hnone, hscenes, ?_, ?_⟩
  · unfold sceneTable
    rw [hscenes]
  · unfold initCallLine
    rw [List.find?_eq_none.mpr (fun seg hseg => by simpa using h seg hseg)]

theorem unknown_segment_selection_skipped_witness :
    (∀ seg ∈ [(⟨1, 0, 2, "Hello"⟩ : Segment)], seg.id ≠ (99 : Int)) ∧
    processSelection [⟨1, 0, 2, "Hello"⟩] [] ⟨99, "emphasis", []⟩ = none ∧
    sceneTable [⟨99, "emphasis", []⟩, ⟨1, "text_display", []⟩]
        [⟨1, 0, 2, "Hello"⟩] [] =
      sceneTable [⟨1, "text_display", []⟩] [⟨1, 0, 2, "Hello"⟩] [] ∧
    initCallLine [⟨1, 0, 2, "Hello"⟩] ⟨99, "emphasis", []⟩ = "" := by
  have h := unknown_segment_selection_skipped [⟨1, 0, 2, "Hello"⟩] []
    ⟨99, "emphasis", []⟩ [] [⟨1, "text_display", []⟩] (by decide)
  exact ⟨by decide, h.1, h.2.2.1, h.2.2.2⟩

theorem lookupParam_cons (k : String) (v : Value) (rest : Params)
    (key : String) :
    lookupParam ((k, v) :: rest) key =
      if k == key then some v else lookupParam rest key := by
  cases h : (k == key) <;> simp [lookupParam, List.find?, h]

/-- C3 (counterexample): a Selection with unregistered component id and a
Segment whose own text is the empty string is composed with the fallback,
but the displayed text is the fallback's `'Sample Text'` placeholder (the
`params.text || 'Sample Text'` fallback treats the supplied empty string as
falsy), not the Segment's text. -/
theorem fallback_empty_text_counterexample :
    ComponentRegistry.get "does_not_exist" = none ∧
    (processSelection [⟨7, 0, 5, ""⟩] [] ⟨7, "does_not_exist", []⟩).isSome ∧
    textDisplayText
      (mergedParamsOf TextDisplay ⟨7, 0, 5, ""⟩ ⟨7, "does_not_exist", []⟩ []) =
      .str "Sample Text" ∧
    Value.str "Sample Text" ≠ Value.str "" := by
  refine ⟨rfl, rfl, rfl, by decide⟩

/-- C3 (amended): for a Selection whose componentId is not registered,
assembly does not skip or throw: the universal fallback `text_display` is
substituted and the Segment's own text is supplied as its `text` parameter;
the displayed text equals the Segment's text whenever that text is
non-empty (an empty Segment text is falsy in JavaScript and is replaced by
the fallback's `'Sample Text'` placeholder). -/
theorem fallback_component_substituted (segments : List Segment)
    (settings : List (String × Params)) (sel : ComponentSelection)
    (segment : Segment)
    (hunknown : ComponentRegistry.get sel.componentId = none)
    (hs : segments.find? (fun s => s.id == sel.segmentId) = some segment) :
    resolveComponent sel.componentId = some TextDisplay ∧
    (processSelection segments settings sel).isSome ∧
    lookupParam (mergedParamsOf TextDisplay segment sel settings) "text" =
      some (.str segment.text) ∧
    (segment.text ≠ "" →
      textDisplayText (mergedParamsOf TextDisplay segment sel settings) =
        .str segment.text) := by
  have hres := resolveComponent_of_unknown sel.componentId hunknown
  have hid : TextDisplay.id = "text_display" := rfl
  have hne : sel.componentId ≠ TextDisplay.id := by
    intro he
    rw [he, hid, get_text_display] at hunknown
    exact Option.noConfusion hunknown
  have hmerged : mergedParamsOf TextDisplay segment sel settings =
      ("text", Value.str segment.text) ::
        (sel.params ++ lookupSettings settings TextDisplay.id) := by
    unfold mergedParamsOf
    rw [if_pos hne]
    rfl
  refine ⟨hres, ?_, ?_, ?_⟩
  · rw [processSelection_eq_some segments settings sel TextDisplay segment
      hres hs]
    rfl
  · rw [hmerged, lookupParam_cons]
    rfl
  · intro htext
    rw [hmerged]
    unfold textDisplayText
    rw [lookupParam_cons]
    simp [jsOr, falsy, htext]

theorem fallback_component_substituted_witness :
    ComponentRegistry.get "does_not_exist" = none ∧
    textDisplayText (mergedParamsOf TextDisplay ⟨3, 0, 4, "Caching is fast"⟩
        ⟨3, "does_not_exist", []⟩ []) = .str "Caching is fast" := by
  have h := fallback_component_substituted [⟨3, 0, 4, "Caching is fast"⟩] []
    ⟨3, "does_not_exist", []⟩ ⟨3, 0, 4, "Caching is fast"⟩ rfl (by decide)
  exact ⟨rfl, h.2.2.2 (by decide)⟩

/-- C4 (counterexample): a Segment with `endTime = startTime` is processed by
the assembler, and the duration it computes and hands to `render`
(registry.ts line 125) is `0`, not a clamped positive value. -/
theorem duration_not_clamped_counterexample :
    computedDuration ⟨3, 2, 2, "x"⟩ = 0 ∧
    ¬ (0 : ℚ) < computedDuration ⟨3, 2, 2, "x"⟩ ∧
    (processSelection [⟨3, 2, 2, "x"⟩] []
      ⟨3, "text_display", [("text", Value.str "x")]⟩).isSome := by
  refine ⟨?_, ?_, rfl⟩
  · unfold computedDuration
    norm_num
  · unfold computedDuration
    norm_num

/-- C4 (amended): the duration the assembler passes to a component's
`render` is exactly the Segment's `endTime - startTime`: the emitted scene
factory wraps the script `render` produced at that exact duration, and no
clamping happens, so a Segment with `endTime <= startTime` results in a
non-positive duration being passed. -/
theorem duration_passed_is_exact_difference (segments : List Segment)
    (settings : List (String × Params)) (sel : ComponentSelection)
    (segment : Segment) (component : AnimationComponent) (out : SceneOutput)
    (hc : resolveComponent sel.componentId = some component)
    (hs : segments.find? (fun s => s.id == sel.segmentId) = some segment)
    (hp : processSelection segments settings sel = some out) :
    out.sceneScript = sceneScriptWrap segment.id
      ((component.render (mergedParamsOf component segment sel settings)
        (segment.endTime - segment.startTime)).script) ∧
    computedDuration segment = segment.endTime - segment.startTime ∧
    (segment.endTime ≤ segment.startTime → computedDuration segment ≤ 0) := by
  rw [processSelection_eq_some segments settings sel component segment hc hs]
    at hp
  obtain rfl : out = _ := (Option.some_inj.mp hp).symm
  refine ⟨rfl, rfl, fun h => ?_⟩
  unfold computedDuration
  exact sub_nonpos.mpr h

theorem duration_passed_is_exact_difference_witness :
    computedDuration ⟨5, 1, 3, "hi"⟩ = (3 : ℚ) - 1 ∧
    ((3 : ℚ) ≤ 1 → computedDuration ⟨5, 1, 3, "hi"⟩ ≤ 0) := by
  have hp := processSelection_eq_some [⟨5, 1, 3, "hi"⟩] [] ⟨5, "emphasis", []⟩
    EmphasisComponent ⟨5, 1, 3, "hi"⟩ rfl (by decide)
  have h := duration_passed_is_exact_difference [⟨5, 1, 3, "hi"⟩] []
    ⟨5, "emphasis", []⟩ ⟨5, 1, 3, "hi"⟩ EmphasisComponent _ rfl (by decide) hp
  exact ⟨h.2.1, h.2.2⟩

/-- C5 (counterexample): `emphasis` declares `text` with schema default
`'Key Point'`, yet calling its `render` with `text` absent interpolates the
JavaScript string `"undefined"` into the markup — the schema default is not
applied and `render` does receive `undefined` for a declared parameter. -/
theorem emphasis_missing_text_counterexample :
    (EmphasisComponent.paramsSchema.find? (fun p => p.1 == "text")).map
        (fun p => p.2.default) = some (some (.str "Key Point")) ∧
    (EmphasisComponent.render [] 3).html =
      emphasisHtml1 ++ "undefined" ++ emphasisHtml2 ∧
    (EmphasisComponent.render [("text", .str "Key Point")] 3).html =
      emphasisHtml1 ++ "Key Point" ++ emphasisHtml2 ∧
    ("undefined" : String) ≠ "Key Point" := by
  refine ⟨rfl, rfl, rfl, by decide⟩

/-- C5 (amended): parameter defaulting is implemented inside each component's
`render`, not by the registry: for the optional parameters the in-`render`
fallbacks coincide with the declared schema defaults, so calling `render`
with only the required `text` supplied behaves exactly as if the omitted
optional parameters had been passed with their schema defaults (and never
throws); the other nine registered components declare no parameters at all.
A declared-but-absent required parameter, however, is not defaulted (see the
counterexample). -/
theorem optional_param_defaults_match_schema :
    (∀ (t : Value) (d : ℚ),
      EmphasisComponent.render [("text", t)] d =
        EmphasisComponent.render [("text", t), ("color", .str "#ffd700"),
          ("glowColor", .str "#ffd700"), ("size", .str "large")] d) ∧
    (∀ (t : Value) (d : ℚ),
      TextDisplay.render [("text", t)] d =
        TextDisplay.render [("text", t), ("fontSize", .str "2rem"),
          ("color", .str "#ffffff"), ("bgColor", .str "#333333")] d) ∧
    SlowAppHook.paramsSchema = [] ∧ ExpensiveAndSlow.paramsSchema = [] ∧
    CachingSolution.paramsSchema = [] ∧ StoreInMemory.paramsSchema = [] ∧
    FirstRequestFlow.paramsSchema = [] ∧ CacheHit.paramsSchema = [] ∧
    StaleDataProblem.paramsSchema = [] ∧ TTLSolution.paramsSchema = [] ∧
    CacheIntelligently.paramsSchema = [] := by
  exact ⟨fun t d => rfl, fun t d => rfl, rfl, rfl, rfl, rfl, rfl, rfl, rfl,
    rfl, rfl⟩

/-- C8: every registered component's `render` is referentially transparent:
its output is fully determined by the declared parameters it reads and the
duration — for the two parameterized components the output is unchanged
whenever the looked-up parameter values agree (so any two calls with
identical `p, d` are byte-identical), and the nine constant components
ignore `params` and `duration` entirely.  No render reads any external
mutable state (none appears in its embedding). -/
theorem render_referentially_transparent :
    (∀ (p q : Params) (d : ℚ),
      lookupParam p "text" = lookupParam q "text" →
      lookupParam p "color" = lookupParam q "color" →
      lookupParam p "glowColor" = lookupParam q "glowColor" →
      lookupParam p "size" = lookupParam q "size" →
      EmphasisComponent.render p d = EmphasisComponent.render q d) ∧
    (∀ (p q : Params) (d : ℚ),
      lookupParam p "text" = lookupParam q "text" →
      lookupParam p "fontSize" = lookupParam q "fontSize" →
      lookupParam p "color" = lookupParam q "color" →
      lookupParam p "bgColor" = lookupParam q "bgColor" →
      TextDisplay.render p d = TextDisplay.render q d) ∧
    (∀ (p q : Params) (d e : ℚ),
      SlowAppHook.render p d = SlowAppHook.render q e ∧
      ExpensiveAndSlow.render p d = ExpensiveAndSlow.render q e ∧
      CachingSolution.render p d = CachingSolution.render q e ∧
      StoreInMemory.render p d = StoreInMemory.render q e ∧
      FirstRequestFlow.render p d = FirstRequestFlow.render q e ∧
      CacheHit.render p d = CacheHit.render q e ∧
      StaleDataProblem.render p d = StaleDataProblem.render q e ∧
      TTLSolution.render p d = TTLSolution.render q e ∧
      CacheIntelligently.render p d = CacheIntelligently.render q e) := by
  refine ⟨?_, ?_, ?_⟩
  · intro p q d h1 h2 h3 h4
    show (let text := lookupParam p "text"
          let color := destrD (lookupParam p "color") (.str "#ffd700")
          let glowColor := destrD (lookupParam p "glowColor") (.str "#ffd700")
          let size := destrD (lookupParam p "size") (.str "large")
          let fontSize := emphasisFontSize size
          ({ html := emphasisHtml1 ++ optStr text ++ emphasisHtml2
             css := emphasisCss1 ++ fontSize ++ emphasisCss2 ++ valStr color ++
                    emphasisCss3 ++ valStr glowColor ++ emphasisCss4 ++
                    valStr glowColor ++ emphasisCss5
             script := emphasisScript1 ++ jsNum d ++ emphasisScript2 ++
                       valStr glowColor ++ emphasisScript3 ++ valStr glowColor ++
                       emphasisScript4 } : RenderOutput)) = _
    rw [h1, h2, h3, h4]
    rfl
  · intro p q d h1 h2 h3 h4
    show (let text := textDisplayText p
          let fontSize := jsOr (lookupParam p "fontSize") (.str "2rem")
          let color := jsOr (lookupParam p "color") (.str "#ffffff")
          let bgColor := jsOr (lookupParam p "bgColor") (.str "#333333")
          ({ html := textDisplayHtml1 ++ valStr text ++ textDisplayHtml2
             css := textDisplayCss1 ++ valStr bgColor ++ textDisplayCss2 ++
                    valStr fontSize ++ textDisplayCss3 ++ valStr color ++
                    textDisplayCss4
             script := textDisplayScript1 ++ jsNum (d - 8/10) ++
                       textDisplayScript2 } : RenderOutput)) = _
    unfold textDisplayText
    rw [h1, h2, h3, h4]
    rfl
  · intro p q d e
    exact ⟨rfl, rfl, rfl, rfl, rfl, rfl, rfl, rfl, rfl⟩

theorem render_referentially_transparent_witness :
    EmphasisComponent.render [("text", Value.str "a"), ("junk", Value.num 1)] 2 =
      EmphasisComponent.render [("other", Value.boolv true),
        ("text", Value.str "a")] 2 ∧
    SlowAppHook.render [] 1 = SlowAppHook.render [("x", Value.num 0)] 7 := by
  refine ⟨?_, ?_⟩
  · exact render_referentially_transparent.1
      [("text", Value.str "a"), ("junk", Value.num 1)]
      [("other", Value.boolv true), ("text", Value.str "a")] 2 rfl rfl rfl rfl
  · exact (render_referentially_transparent.2.2 [] [("x", Value.num 0)] 1 7).1
